import Mathlib

/-! MultiMouse raw-input addon: a shallow embedding

Source files: `src/multimouse_addon.cpp` and `src/orionix_addon.cpp`.  The two files share
`GetDeviceName`, `RawInputWndProc` and `ProcessMessages` verbatim; the cursor-visibility
functions (`HideSystemCursor`, `ShowSystemCursor`, `EmergencyRestoreCursors`) exist in
`orionix_addon.cpp` only.

Conventions of the embedding.

* The C++ globals become fields of explicit state records that every function takes and returns.
* A call into the operating system whose result the source tests (`GetRawInputData`,
  `GetRawInputDeviceInfo`, `GetCursorPos`, `CreateCursor`, `LoadCursor` in the restore paths)
  is an input of the embedded function, so that both outcomes are covered.
* `int` arithmetic that can leave the 32-bit range (`device.x += lLastX`) wraps around.
* `std::queue` is a list with `push` at the back and `front`/`pop` at the head; `std::map` is an
  association list (the source never iterates over the map, so the order is unobservable).
-/

namespace MultiMouse

/-! ## Basic types -/

/-- The type `HANDLE`, an opaque pointer value. -/
abbrev HANDLE := Nat

/-- The type `HCURSOR`; the null handle is `0`. -/
abbrev HCURSOR := Nat

/-- The struct `MouseEvent`. -/
structure MouseEvent where
  hDevice : HANDLE
  deviceName : String
  x : Int
  y : Int
  deltaX : Int
  deltaY : Int
  flags : Int
  type : String
  action : String
  deriving DecidableEq, Repr

/-- The struct `MouseDevice`. -/
structure MouseDevice where
  hDevice : HANDLE
  name : String
  x : Int
  y : Int
  deriving DecidableEq, Repr

/-- Wrap-around of a mathematical integer into the range of a 32-bit `int`. -/
def wrapInt32 (v : Int) : Int := Int.bmod v (2 ^ 32)

/-! ## Device name classifier (`GetDeviceName`) -/

/-- The call `s.find(pat)` of `std::string`: the position of the first occurrence of `pat`
in `s`, or `none` for `npos`. -/
def stdFind : List Char → List Char → Option Nat
  | [], pat => if pat.isPrefixOf [] then some 0 else none
  | c :: s, pat =>
    if pat.isPrefixOf (c :: s) then some 0 else (stdFind s pat).map (· + 1)

/-- The test `s.find(pat) != std::string::npos`. -/
def foundIn (s : List Char) (pat : String) : Bool := (stdFind s pat.toList).isSome

/-- The constructor `std::wstring devicePath(&name[0])`: the code units of the buffer up to the
first NUL. -/
def devicePathOf (name : List Nat) : List Nat := name.takeWhile (fun wc => wc != 0)

/-- The loop building `cleanPath`: the code units in `32..126`, each cast to `char`. -/
def cleanPathOf (devicePath : List Nat) : List Char :=
  (devicePath.filter (fun wc => decide (wc ≥ 32) && decide (wc ≤ 126))).map Char.ofNat

/-- The if-chain of `GetDeviceName` on `cleanPath` (orionix lines 106-124). -/
def classifyCleanPath (cleanPath : List Char) : String :=
  if foundIn cleanPath "HID" then
    if foundIn cleanPath "VID_046D" then "Logitech Mouse"
    else if foundIn cleanPath "VID_1532" then "Razer Mouse"
    else if foundIn cleanPath "VID_045E" then "Microsoft Mouse"
    else if foundIn cleanPath "TouchPad" || foundIn cleanPath "trackpad" then "Trackpad"
    else "USB Mouse"
  else if foundIn cleanPath "PS2" then "PS/2 Mouse"
  else if foundIn cleanPath "Synaptics" || foundIn cleanPath "TouchPad" then "Trackpad"
  else "Generic Mouse"

/-- What the two calls of `GetRawInputDeviceInfo(hDevice, RIDI_DEVICENAME, ...)` produce:
the size reported by the first call, the return value of the second call (a `UINT`) and the
contents of the buffer `name` after it. -/
structure DeviceInfoQuery where
  nameSize : Nat
  ret : Nat
  name : List Nat
  deriving DecidableEq, Repr

/-- The function `GetDeviceName`, given the outcome of the device-info query for the handle. -/
def GetDeviceName (q : DeviceInfoQuery) : String :=
  if q.nameSize > 0 then
    if q.ret > 0 then classifyCleanPath (cleanPathOf (devicePathOf q.name))
    else "Unknown Device"
  else "Unknown Device"

/-! ## Device registry (`std::map<HANDLE, MouseDevice> devices`) -/

/-- The map `devices`, as an association list from handle to device. -/
abbrev DeviceMap := List (HANDLE × MouseDevice)

/-- The call `devices.find(hDevice)`; `none` stands for `devices.end()`. -/
def mapFind (devices : DeviceMap) (hDevice : HANDLE) : Option MouseDevice :=
  devices.lookup hDevice

/-- The assignment `devices[hDevice] = device`: overwrite the entry of the key, or add one. -/
def mapAssign : DeviceMap → HANDLE → MouseDevice → DeviceMap
  | [], hDevice, device => [(hDevice, device)]
  | (k, v) :: rest, hDevice, device =>
    if k == hDevice then (hDevice, device) :: rest else (k, v) :: mapAssign rest hDevice device

/-- The read of `devices[hDevice]`: the entry of the key, or the value-initialised
`MouseDevice` that `operator[]` creates for an absent key. -/
def mapIndex (devices : DeviceMap) (hDevice : HANDLE) : MouseDevice :=
  match mapFind devices hDevice with
  | some device => device
  | none => { hDevice := 0, name := "", x := 0, y := 0 }

/-- The call `devices.erase(it)` for the iterator of a key: the entry of that key goes. -/
def mapErase (devices : DeviceMap) (hDevice : HANDLE) : DeviceMap :=
  devices.filter (fun p => p.1 != hDevice)

/-! ## Capture adapter (`RawInputWndProc`) -/

/-- The constant `RIM_TYPEMOUSE` of the Windows headers. -/
def RIM_TYPEMOUSE : Nat := 0

/-- The constant `GIDC_ARRIVAL` of the Windows headers. -/
def GIDC_ARRIVAL : Nat := 1

/-- The constant `GIDC_REMOVAL` of the Windows headers. -/
def GIDC_REMOVAL : Nat := 2

/-- The fields of `RAWINPUT` that the window procedure reads: `header.dwType`,
`header.hDevice`, `data.mouse.lLastX`, `data.mouse.lLastY`, `data.mouse.usFlags`. -/
structure RAWINPUT where
  dwType : Nat
  hDevice : HANDLE
  lLastX : Int
  lLastY : Int
  usFlags : Nat
  deriving DecidableEq, Repr

/-- A window message as `RawInputWndProc` sees it.  For `WM_INPUT` the payload is what
`GetRawInputData` copies out, `none` when the copied size differs from `dwSize`.  For
`WM_INPUT_DEVICE_CHANGE` the payload is `wParam` and the handle in `lParam`. -/
inductive Message where
  | WM_INPUT (raw : Option RAWINPUT)
  | WM_INPUT_DEVICE_CHANGE (wParam : Nat) (lParam : HANDLE)
  | other
  deriving DecidableEq, Repr

/-- The answers of the operating system during one call of the window procedure:
`GetSystemMetrics(SM_CXSCREEN)`, `GetSystemMetrics(SM_CYSCREEN)`, `GetCursorPos` (`none` when
it returns `FALSE`) and the device-info query behind `GetDeviceName(hDevice)`. -/
structure OsReplies where
  SM_CXSCREEN : Int
  SM_CYSCREEN : Int
  GetCursorPos : Option (Int × Int)
  deviceInfo : DeviceInfoQuery
  deriving DecidableEq, Repr

/-- The globals `devices`, `eventQueue` and `messageCount`. -/
structure InputState where
  devices : DeviceMap
  eventQueue : List MouseEvent
  messageCount : Int
  deriving DecidableEq, Repr

/-- The call `eventQueue.push(event)` under the lock. -/
def queuePush (eventQueue : List MouseEvent) (event : MouseEvent) : List MouseEvent :=
  eventQueue ++ [event]

/-- The `"device"`/`"added"` event built for a first-seen handle. -/
def addedEvent (device : MouseDevice) : MouseEvent :=
  { hDevice := device.hDevice, deviceName := device.name, x := device.x, y := device.y,
    deltaX := 0, deltaY := 0, flags := 0, type := "device", action := "added" }

/-- The `"move"` event built after a position update. -/
def moveEvent (device : MouseDevice) (hDevice : HANDLE) (raw : RAWINPUT) : MouseEvent :=
  { hDevice := hDevice, deviceName := device.name, x := device.x, y := device.y,
    deltaX := raw.lLastX, deltaY := raw.lLastY, flags := (raw.usFlags : Int),
    type := "move", action := "" }

/-- The `"device"`/`"removed"` event built for a removal. -/
def removedEvent (hDevice : HANDLE) (deviceName : String) : MouseEvent :=
  { hDevice := hDevice, deviceName := deviceName, x := 0, y := 0,
    deltaX := 0, deltaY := 0, flags := 0, type := "device", action := "removed" }

/-- The block `if (devices.find(hDevice) == devices.end()) { ... }` of the `WM_INPUT` case. -/
def registerIfNew (os : OsReplies) (hDevice : HANDLE) (s : InputState) : InputState :=
  if (mapFind s.devices hDevice).isNone then
    let device : MouseDevice :=
      { hDevice := hDevice, name := GetDeviceName os.deviceInfo,
        x := Int.tdiv os.SM_CXSCREEN 2, y := Int.tdiv os.SM_CYSCREEN 2 }
    { s with devices := mapAssign s.devices hDevice device,
             eventQueue := queuePush s.eventQueue (addedEvent device) }
  else s

/-- The position update inside `if (lLastX != 0 || lLastY != 0)`: the cursor position when
`GetCursorPos` succeeds, else the last position plus the delta, clamped to the screen. -/
def updatePosition (os : OsReplies) (raw : RAWINPUT) (device : MouseDevice) : MouseDevice :=
  match os.GetCursorPos with
  | some cursorPos => { device with x := cursorPos.1, y := cursorPos.2 }
  | none =>
    let x := wrapInt32 (device.x + raw.lLastX)
    let y := wrapInt32 (device.y + raw.lLastY)
    { device with x := max 0 (min x (os.SM_CXSCREEN - 1)),
                  y := max 0 (min y (os.SM_CYSCREEN - 1)) }

/-- The block `if (lLastX != 0 || lLastY != 0) { ... }` of the `WM_INPUT` case. -/
def moveIfDelta (os : OsReplies) (raw : RAWINPUT) (s : InputState) : InputState :=
  if raw.lLastX != 0 || raw.lLastY != 0 then
    let device := updatePosition os raw (mapIndex s.devices raw.hDevice)
    { s with devices := mapAssign s.devices raw.hDevice device,
             eventQueue := queuePush s.eventQueue (moveEvent device raw.hDevice raw) }
  else s

/-- The block of `case WM_INPUT_DEVICE_CHANGE` taken when `wParam == GIDC_REMOVAL`. -/
def removeDevice (hDevice : HANDLE) (s : InputState) : InputState :=
  match mapFind s.devices hDevice with
  | some device =>
    { s with devices := mapErase s.devices hDevice,
             eventQueue := queuePush s.eventQueue (removedEvent hDevice device.name) }
  | none =>
    { s with eventQueue := queuePush s.eventQueue (removedEvent hDevice "Unknown") }

/-- The window procedure `RawInputWndProc`, as a transition of the globals. -/
def RawInputWndProc (os : OsReplies) (msg : Message) (s : InputState) : InputState :=
  match msg with
  | .WM_INPUT raw =>
    let s := { s with messageCount := wrapInt32 (s.messageCount + 1) }
    match raw with
    | none => s
    | some raw =>
      if raw.dwType == RIM_TYPEMOUSE then
        moveIfDelta os raw (registerIfNew os raw.hDevice s)
      else s
  | .WM_INPUT_DEVICE_CHANGE wParam lParam =>
    if wParam == GIDC_REMOVAL then removeDevice lParam s else s
  | .other => s

/-- The window procedure run over a sequence of messages, each with the answers of the
operating system during its call. -/
def runWndProc (msgs : List (OsReplies × Message)) (s : InputState) : InputState :=
  msgs.foldl (fun s m => RawInputWndProc m.1 m.2 s) s

/-! ## Dispatch loop (`ProcessMessages`) -/

/-- A call of a consumer callback, with the event whose fields it receives. -/
inductive CallbackCall where
  | moveCallback (event : MouseEvent)
  | deviceCallback (event : MouseEvent)
  deriving DecidableEq, Repr

/-- The loop `while (count < 10 && PeekMessage(...)) { DispatchMessage; count++; }`:
`pending` lists the messages `PeekMessage` would hand out, in order. -/
def pumpMessages : List (OsReplies × Message) → Int → InputState → Int × InputState
  | [], count, s => (count, s)
  | m :: pending, count, s =>
    if count < 10 then pumpMessages pending (count + 1) (RawInputWndProc m.1 m.2 s)
    else (count, s)

/-- The call `localQueue.swap(eventQueue)`: the pair (new `localQueue`, new `eventQueue`). -/
def queueSwap (localQueue eventQueue : List MouseEvent) : List MouseEvent × List MouseEvent :=
  (eventQueue, localQueue)

/-- The drain step of `ProcessMessages`: a fresh empty `localQueue` is swapped with
`eventQueue` under the lock.  Returns `localQueue` and the globals afterwards. -/
def drainStep (s : InputState) : List MouseEvent × InputState :=
  let swapped := queueSwap [] s.eventQueue
  (swapped.1, { s with eventQueue := swapped.2 })

/-- The loop `while (!localQueue.empty()) { front; pop; ...; count++; }`: the callback calls it
makes, in order, and the final `count`. -/
def dispatchEvents (moveCallbackSet deviceCallbackSet : Bool) :
    List MouseEvent → Int → List CallbackCall × Int
  | [], count => ([], count)
  | event :: localQueue, count =>
    let rest := dispatchEvents moveCallbackSet deviceCallbackSet localQueue (count + 1)
    if event.type == "move" && moveCallbackSet then
      (CallbackCall.moveCallback event :: rest.1, rest.2)
    else if event.type == "device" && deviceCallbackSet then
      (CallbackCall.deviceCallback event :: rest.1, rest.2)
    else rest

/-- The method `ProcessMessages`: the returned count, the callback calls made, and the globals
afterwards. -/
def ProcessMessages (pending : List (OsReplies × Message))
    (moveCallbackSet deviceCallbackSet : Bool) (s : InputState) :
    Int × List CallbackCall × InputState :=
  let pumped := pumpMessages pending 0 s
  let drained := drainStep pumped.2
  let dispatched := dispatchEvents moveCallbackSet deviceCallbackSet drained.1 pumped.1
  (dispatched.2, dispatched.1, drained.2)

/-! ## Cursor visibility (`orionix_addon.cpp`) -/

/-- The names of the ten standard cursors passed to `LoadCursor(NULL, ...)`, in the order in
which the source loads them. -/
inductive Idc where
  | IDC_ARROW | IDC_IBEAM | IDC_HAND | IDC_WAIT | IDC_CROSS
  | IDC_SIZEWE | IDC_SIZENS | IDC_SIZENESW | IDC_SIZENWSE | IDC_NO
  deriving DecidableEq, Repr

/-- The answers of the operating system during one call of a cursor function: `GetCursor()`,
`CreateCursor(...)` inside `CreateTransparentCursor` (`0` when it fails),
`LoadCursor(NULL, name)` for each standard cursor (`0` when it fails) and `GetCursorInfo`
(`none` when it fails, else `hCursor` and the two coordinates of `ptScreenPos`). -/
structure CursorOs where
  GetCursor : HCURSOR
  CreateCursor : HCURSOR
  LoadCursor : Idc → HCURSOR
  GetCursorInfo : Option (HCURSOR × Int × Int)

/-- The globals `originalCursor`, `transparentCursor`, `cursorHidden`, `originalCursors`,
`cursorsSaved`, together with the two pieces of operating-system state the cursor functions
act on: the glyph installed in each system cursor slot (`SetSystemCursor` writes it) and the
display counter behind `ShowCursor`.  A glyph is named by the handle it was copied from. -/
structure CursorState where
  originalCursor : HCURSOR
  transparentCursor : HCURSOR
  cursorHidden : Bool
  originalCursors : List HCURSOR
  cursorsSaved : Bool
  systemCursors : Nat → HCURSOR
  displayCount : Int

/-- The state at program start: the static initialisers of the globals, over any system
cursor table and display counter. -/
def CursorState.initial (systemCursors : Nat → HCURSOR) (displayCount : Int) : CursorState :=
  { originalCursor := 0, transparentCursor := 0, cursorHidden := false,
    originalCursors := List.replicate 10 0, cursorsSaved := false,
    systemCursors := systemCursors, displayCount := displayCount }

/-- The call `CopyCursor(h)`: a copy shows the glyph of `h`, so it carries the same name. -/
def CopyCursor (h : HCURSOR) : HCURSOR := h

/-- The call `SetSystemCursor(hcur, id)`: slot `id` now shows the glyph of `hcur`. -/
def SetSystemCursor (hcur : HCURSOR) (id : Nat) (systemCursors : Nat → HCURSOR) :
    Nat → HCURSOR :=
  Function.update systemCursors id hcur

/-- The call `ShowCursor(bShow)`: the display counter goes up by one for `TRUE` and down by
one for `FALSE`; the value returned to the caller is the new counter. -/
def ShowCursor (bShow : Bool) (displayCount : Int) : Int :=
  if bShow then displayCount + 1 else displayCount - 1

/-- The function `CreateTransparentCursor`: the result of its `CreateCursor` call. -/
def CreateTransparentCursor (os : CursorOs) : HCURSOR := os.CreateCursor

/-- The loop `while (cursorCount >= 0) cursorCount = ShowCursor(FALSE);` of
`HideSystemCursor`.  The local `cursorCount` always holds the display counter. -/
def hideCountLoop (displayCount : Int) : Int :=
  if displayCount ≥ 0 then hideCountLoop (ShowCursor false displayCount) else displayCount
termination_by (displayCount + 1).toNat
decreasing_by
  simp only [ShowCursor, Bool.false_eq_true, if_false, if_true]
  omega

/-- The loop `while (cursorCount < 0) cursorCount = ShowCursor(TRUE);` of `ShowSystemCursor`,
also the repetition of the `do ... while (cursorCount < 0)` of `EmergencyRestoreCursors`. -/
def showCountLoop (displayCount : Int) : Int :=
  if displayCount < 0 then showCountLoop (ShowCursor true displayCount) else displayCount
termination_by (-displayCount).toNat
decreasing_by
  simp only [ShowCursor, Bool.false_eq_true, if_false, if_true]
  omega

/-- One statement `if (defaultX) SetSystemCursor(CopyCursor(defaultX), id);`. -/
def setIfLoaded (defaultCursor : HCURSOR) (id : Nat) (systemCursors : Nat → HCURSOR) :
    Nat → HCURSOR :=
  if defaultCursor != 0 then SetSystemCursor (CopyCursor defaultCursor) id systemCursors
  else systemCursors

/-- The method `HideSystemCursor`: the returned boolean and the state afterwards.  The call
`Sleep(5000)` only passes time. -/
def HideSystemCursor (os : CursorOs) (s : CursorState) : Bool × CursorState :=
  if !s.cursorHidden then
    let s := { s with originalCursor := os.GetCursor }
    let s := if s.transparentCursor == 0 then
        { s with transparentCursor := CreateTransparentCursor os } else s
    if s.transparentCursor != 0 then
      let s := if !s.cursorsSaved then
          { s with
            originalCursors :=
              [os.LoadCursor Idc.IDC_ARROW, os.LoadCursor Idc.IDC_IBEAM,
               os.LoadCursor Idc.IDC_HAND, os.LoadCursor Idc.IDC_WAIT,
               os.LoadCursor Idc.IDC_CROSS, os.LoadCursor Idc.IDC_SIZEWE,
               os.LoadCursor Idc.IDC_SIZENS, os.LoadCursor Idc.IDC_SIZENESW,
               os.LoadCursor Idc.IDC_SIZENWSE, os.LoadCursor Idc.IDC_NO],
            cursorsSaved := true }
        else s
      let t := s.systemCursors
      let t := SetSystemCursor (CopyCursor s.transparentCursor) 32512 t
      let t := SetSystemCursor (CopyCursor s.transparentCursor) 32513 t
      let t := SetSystemCursor (CopyCursor s.transparentCursor) 32649 t
      let t := SetSystemCursor (CopyCursor s.transparentCursor) 32514 t
      let t := SetSystemCursor (CopyCursor s.transparentCursor) 32515 t
      let t := SetSystemCursor (CopyCursor s.transparentCursor) 32644 t
      let t := SetSystemCursor (CopyCursor s.transparentCursor) 32645 t
      let t := SetSystemCursor (CopyCursor s.transparentCursor) 32642 t
      let t := SetSystemCursor (CopyCursor s.transparentCursor) 32643 t
      let t := SetSystemCursor (CopyCursor s.transparentCursor) 32648 t
      let cursorCount := ShowCursor false s.displayCount
      (true, { s with systemCursors := t, displayCount := hideCountLoop cursorCount,
                      cursorHidden := true })
    else (false, s)
  else (true, s)

/-- The method `ShowSystemCursor`: the returned boolean and the state afterwards.  The calls
`SystemParametersInfo`, `SendMessage`, `InvalidateRect` and `UpdateWindow` are taken as
announcements of the change to other programs (a settings-changed broadcast and a redraw):
they touch none of the state kept here. -/
def ShowSystemCursor (os : CursorOs) (s : CursorState) : Bool × CursorState :=
  if s.cursorHidden then
    let t := s.systemCursors
    let t := setIfLoaded (os.LoadCursor Idc.IDC_ARROW) 32512 t
    let t := setIfLoaded (os.LoadCursor Idc.IDC_IBEAM) 32513 t
    let t := setIfLoaded (os.LoadCursor Idc.IDC_HAND) 32649 t
    let t := setIfLoaded (os.LoadCursor Idc.IDC_WAIT) 32514 t
    let t := setIfLoaded (os.LoadCursor Idc.IDC_CROSS) 32515 t
    let t := setIfLoaded (os.LoadCursor Idc.IDC_SIZEWE) 32644 t
    let t := setIfLoaded (os.LoadCursor Idc.IDC_SIZENS) 32645 t
    let t := setIfLoaded (os.LoadCursor Idc.IDC_SIZENESW) 32642 t
    let t := setIfLoaded (os.LoadCursor Idc.IDC_SIZENWSE) 32643 t
    let t := setIfLoaded (os.LoadCursor Idc.IDC_NO) 32648 t
    let cursorCount := ShowCursor true s.displayCount
    (true, { s with systemCursors := t, displayCount := showCountLoop cursorCount,
                    cursorHidden := false })
  else (false, s)

/-- The method `EmergencyRestoreCursors`: the returned boolean and the state afterwards. -/
def EmergencyRestoreCursors (os : CursorOs) (s : CursorState) : Bool × CursorState :=
  let t := s.systemCursors
  let t := setIfLoaded (os.LoadCursor Idc.IDC_ARROW) 32512 t
  let t := setIfLoaded (os.LoadCursor Idc.IDC_IBEAM) 32513 t
  let t := setIfLoaded (os.LoadCursor Idc.IDC_HAND) 32649 t
  let t := setIfLoaded (os.LoadCursor Idc.IDC_WAIT) 32514 t
  let t := setIfLoaded (os.LoadCursor Idc.IDC_CROSS) 32515 t
  let t := setIfLoaded (os.LoadCursor Idc.IDC_SIZEWE) 32644 t
  let t := setIfLoaded (os.LoadCursor Idc.IDC_SIZENS) 32645 t
  let t := setIfLoaded (os.LoadCursor Idc.IDC_SIZENESW) 32642 t
  let t := setIfLoaded (os.LoadCursor Idc.IDC_SIZENWSE) 32643 t
  let t := setIfLoaded (os.LoadCursor Idc.IDC_NO) 32648 t
  let cursorCount := ShowCursor true s.displayCount
  (true, { s with systemCursors := t, displayCount := showCountLoop cursorCount,
                  cursorHidden := false })

/-- The constants `CTRL_C_EVENT`, `CTRL_BREAK_EVENT`, `CTRL_CLOSE_EVENT`, `CTRL_LOGOFF_EVENT`
and `CTRL_SHUTDOWN_EVENT` of the Windows headers, the case labels of `ConsoleCtrlHandler`. -/
def ctrlEvents : List Nat := [0, 1, 2, 5, 6]

/-- The handler `ConsoleCtrlHandler`: the returned `BOOL` (always `FALSE`) and the state
afterwards. -/
def ConsoleCtrlHandler (os : CursorOs) (ctrlType : Nat) (s : CursorState) :
    Bool × CursorState :=
  if ctrlType ∈ ctrlEvents then
    if s.cursorHidden then
      let t := s.systemCursors
      let t := setIfLoaded (os.LoadCursor Idc.IDC_ARROW) 32512 t
      let t := setIfLoaded (os.LoadCursor Idc.IDC_IBEAM) 32513 t
      let t := setIfLoaded (os.LoadCursor Idc.IDC_HAND) 32649 t
      let t := setIfLoaded (os.LoadCursor Idc.IDC_WAIT) 32514 t
      let t := setIfLoaded (os.LoadCursor Idc.IDC_CROSS) 32515 t
      let t := setIfLoaded (os.LoadCursor Idc.IDC_SIZEWE) 32644 t
      let t := setIfLoaded (os.LoadCursor Idc.IDC_SIZENS) 32645 t
      let t := setIfLoaded (os.LoadCursor Idc.IDC_SIZENESW) 32642 t
      let t := setIfLoaded (os.LoadCursor Idc.IDC_SIZENWSE) 32643 t
      let t := setIfLoaded (os.LoadCursor Idc.IDC_NO) 32648 t
      (false, { s with systemCursors := t, displayCount := ShowCursor true s.displayCount,
                       cursorHidden := false })
    else (false, s)
  else (false, s)

/-- The object returned by `GetCursorState`. -/
structure CursorStateInfo where
  type : String
  visible : Bool
  x : Int
  y : Int
  deriving DecidableEq, Repr

/-- The method `GetCursorState`: the returned object (`none` for `Null`) and the state
afterwards, which no statement of the method writes. -/
def GetCursorState (os : CursorOs) (s : CursorState) : Option CursorStateInfo × CursorState :=
  match os.GetCursorInfo with
  | some cursorInfo =>
    let currentCursor := cursorInfo.1
    let cursorType :=
      if currentCursor == os.LoadCursor Idc.IDC_ARROW then "arrow"
      else if currentCursor == os.LoadCursor Idc.IDC_IBEAM then "ibeam"
      else if currentCursor == os.LoadCursor Idc.IDC_HAND then "hand"
      else if currentCursor == os.LoadCursor Idc.IDC_WAIT then "wait"
      else if currentCursor == os.LoadCursor Idc.IDC_CROSS then "cross"
      else if currentCursor == os.LoadCursor Idc.IDC_SIZEWE then "resize-ew"
      else if currentCursor == os.LoadCursor Idc.IDC_SIZENS then "resize-ns"
      else if currentCursor == os.LoadCursor Idc.IDC_SIZENESW then "resize-nesw"
      else if currentCursor == os.LoadCursor Idc.IDC_SIZENWSE then "resize-nwse"
      else if currentCursor == os.LoadCursor Idc.IDC_NO then "not-allowed"
      else if !s.cursorHidden then "system"
      else "hidden"
    (some { type := cursorType, visible := !s.cursorHidden,
            x := cursorInfo.2.1, y := cursorInfo.2.2 }, s)
  | none => (none, s)

/-- The pairs (slot identifier, cursor name) as the statements of the source write them: the
slot each `SetSystemCursor` statement writes and the name whose glyph the restoring
statement loads into it.  Whether a pair is right is a question for `Idc.resourceId`. -/
def slotNames : List (Nat × Idc) :=
  [(32512, Idc.IDC_ARROW), (32513, Idc.IDC_IBEAM), (32649, Idc.IDC_HAND),
   (32514, Idc.IDC_WAIT), (32515, Idc.IDC_CROSS), (32644, Idc.IDC_SIZEWE),
   (32645, Idc.IDC_SIZENS), (32642, Idc.IDC_SIZENESW), (32643, Idc.IDC_SIZENWSE),
   (32648, Idc.IDC_NO)]


/-! ## Vocabulary of the statements -/

/-- A point lies on the primary display of the given size. -/
def pointInBounds (width height : Int) (p : Int × Int) : Prop :=
  0 ≤ p.1 ∧ p.1 ≤ width - 1 ∧ 0 ≤ p.2 ∧ p.2 ≤ height - 1

instance (width height : Int) (p : Int × Int) : Decidable (pointInBounds width height p) := by
  unfold pointInBounds; infer_instance

/-- Every device of the registry has its position on the primary display. -/
def positionsInBounds (width height : Int) (devices : DeviceMap) : Prop :=
  ∀ p ∈ devices, pointInBounds width height (p.2.x, p.2.y)

instance (width height : Int) (devices : DeviceMap) :
    Decidable (positionsInBounds width height devices) := by
  unfold positionsInBounds; infer_instance

/-- Motion notifications as window messages: `WM_INPUT` whose raw data was read. -/
def motionMessages (motions : List (OsReplies × RAWINPUT)) : List (OsReplies × Message) :=
  motions.map (fun m => (m.1, Message.WM_INPUT (some m.2)))

/-- The event is a `"device"`/`"added"` event of the handle. -/
def isAttachedFor (hDevice : HANDLE) (e : MouseEvent) : Bool :=
  e.type == "device" && e.action == "added" && e.hDevice == hDevice

/-- The event is a `"move"` event of the handle. -/
def isMovedFor (hDevice : HANDLE) (e : MouseEvent) : Bool :=
  e.type == "move" && e.hDevice == hDevice

/-- The seven labels of the if-chain of `GetDeviceName`. -/
def classifierLabels : List String :=
  ["Logitech Mouse", "Razer Mouse", "Microsoft Mouse", "Trackpad", "USB Mouse", "PS/2 Mouse",
   "Generic Mouse"]

/-- The value `v` clamped into `lo..hi` the way the source writes it:
`std::max(lo, std::min(v, hi))`. -/
def clamp (v lo hi : Int) : Int := max lo (min v hi)

/-- The integer is representable as a 32-bit `int`. -/
def fitsInt32 (v : Int) : Prop := -2147483648 ≤ v ∧ v ≤ 2147483647

instance (v : Int) : Decidable (fitsInt32 v) := by
  unfold fitsInt32; infer_instance

/-- The callback that an event is meant for has been set: the move callback for a `"move"`
event, the device callback for a `"device"` event. -/
def callbackIsSet (moveCallbackSet deviceCallbackSet : Bool) (e : MouseEvent) : Bool :=
  (e.type == "move" && moveCallbackSet) || (e.type == "device" && deviceCallbackSet)

/-- The callback call that delivers an event: to the move callback for a `"move"` event, to
the device callback otherwise. -/
def callbackCallFor (e : MouseEvent) : CallbackCall :=
  if e.type == "move" then CallbackCall.moveCallback e else CallbackCall.deviceCallback e

/-- The calls a batch is expected to cause: the batch in its order, restricted to the events
whose callback is set, each delivered to its callback. -/
def expectedCalls (moveCallbackSet deviceCallbackSet : Bool) (batch : List MouseEvent) :
    List CallbackCall :=
  (batch.filter (callbackIsSet moveCallbackSet deviceCallbackSet)).map callbackCallFor

/-- The ten standard cursors with the type names `GetCursorState` reports for them, in the
order of its comparisons. -/
def glyphNames : List (Idc × String) :=
  [(Idc.IDC_ARROW, "arrow"), (Idc.IDC_IBEAM, "ibeam"), (Idc.IDC_HAND, "hand"),
   (Idc.IDC_WAIT, "wait"), (Idc.IDC_CROSS, "cross"), (Idc.IDC_SIZEWE, "resize-ew"),
   (Idc.IDC_SIZENS, "resize-ns"), (Idc.IDC_SIZENESW, "resize-nesw"),
   (Idc.IDC_SIZENWSE, "resize-nwse"), (Idc.IDC_NO, "not-allowed")]

/-- The type name expected for the current cursor: the name of the first standard cursor
equal to it, else `"system"` when the cursor is not hidden and `"hidden"` when it is. -/
def expectedCursorType (os : CursorOs) (cursorHidden : Bool) (currentCursor : HCURSOR) :
    String :=
  ((glyphNames.find? (fun p => currentCursor == os.LoadCursor p.1)).map (fun p => p.2)).getD
    (if cursorHidden then "hidden" else "system")

/-- A call of one of the cursor entry points. -/
inductive CursorCall where
  | hideSystemCursor
  | showSystemCursor
  | emergencyRestoreCursors
  | getCursorState
  | consoleCtrlHandler (ctrlType : Nat)
  deriving DecidableEq, Repr

/-- The state after one call, made with the given answers of the operating system. -/
def applyCall (os : CursorOs) (call : CursorCall) (s : CursorState) : CursorState :=
  match call with
  | CursorCall.hideSystemCursor => (HideSystemCursor os s).2
  | CursorCall.showSystemCursor => (ShowSystemCursor os s).2
  | CursorCall.emergencyRestoreCursors => (EmergencyRestoreCursors os s).2
  | CursorCall.getCursorState => (GetCursorState os s).2
  | CursorCall.consoleCtrlHandler ctrlType => (ConsoleCtrlHandler os ctrlType s).2

/-- The state after a sequence of calls. -/
def runCalls (calls : List (CursorOs × CursorCall)) (s : CursorState) : CursorState :=
  calls.foldl (fun s c => applyCall c.1 c.2 s) s

/-- The snapshot flag is set, the placeholder cursor exists and each of the ten slots holds
the placeholder. -/
def placeholderInstalled (s : CursorState) : Prop :=
  s.cursorsSaved = true ∧ s.transparentCursor ≠ 0 ∧
  ∀ p ∈ slotNames, s.systemCursors p.1 = s.transparentCursor

/-- The ten slot identifiers named by the claim on the fixed set of slots. -/
def standardSlots : Set Nat :=
  {32512, 32513, 32514, 32515, 32642, 32643, 32644, 32645, 32648, 32649}

/-- The slots a cursor function writes: those whose glyph it changes for some state and some
answers of the operating system. -/
def slotsWritten (f : CursorOs → CursorState → Bool × CursorState) : Set Nat :=
  {id | ∃ os s, (f os s).2.systemCursors id ≠ s.systemCursors id}

/-- One step of an interleaving of the producer with the consumer.  Every access to
`eventQueue` in the source is inside a `std::lock_guard` on `eventMutex`, so the steps of
an interleaving are whole critical sections: a `push` of the producer or the swap of the
consumer. -/
inductive QueueStep where
  | push (event : MouseEvent)
  | drain
  deriving DecidableEq, Repr

/-- The batches handed to the consumer, in order, and the globals after a sequence of
critical sections. -/
def runQueueSteps : List QueueStep → InputState → List (List MouseEvent) × InputState
  | [], s => ([], s)
  | QueueStep.push event :: steps, s =>
    runQueueSteps steps { s with eventQueue := queuePush s.eventQueue event }
  | QueueStep.drain :: steps, s =>
    let drained := drainStep s
    let rest := runQueueSteps steps drained.2
    (drained.1 :: rest.1, rest.2)

/-- The events pushed by a sequence of critical sections, in push order. -/
def pushedEvents : List QueueStep → List MouseEvent
  | [] => []
  | QueueStep.push event :: steps => event :: pushedEvents steps
  | QueueStep.drain :: steps => pushedEvents steps
/-! ## Sample inputs -/

/-- An identifier with `"HID"`, `"VID_046D"` and also another vendor ID, `"PS2"`, `"TouchPad"`
and `"Synaptics"`, with a non-printable code unit in the middle of `"HID"`. -/
def sampleLogitechQuery : DeviceInfoQuery :=
  { nameSize := 64, ret := 64,
    name := [72, 9] ++
      ("ID#VID_1532&VID_046D&PS2#TouchPad#Synaptics".toList.map Char.toNat) ++ [0] }

/-- An identifier with `"HID"`, `"TouchPad"` and `"PS2"` and an unrecognised vendor ID. -/
def sampleTouchpadQuery : DeviceInfoQuery :=
  { nameSize := 64, ret := 64,
    name := ("HID#VID_06CB&PS2#TouchPad".toList.map Char.toNat) ++ [0] }


/-- Replies of a 1920 x 1080 display on which `GetCursorPos` fails. -/
def sampleOsNoCursor : OsReplies :=
  { SM_CXSCREEN := 1920, SM_CYSCREEN := 1080, GetCursorPos := none,
    deviceInfo := sampleLogitechQuery }

/-- Replies of a 1920 x 1080 primary display while the cursor is on a second monitor to its
right, slightly above the top edge of the primary one. -/
def sampleOsSecondMonitor : OsReplies :=
  { SM_CXSCREEN := 1920, SM_CYSCREEN := 1080, GetCursorPos := some (2500, -3),
    deviceInfo := sampleLogitechQuery }

/-- Replies of a 1920 x 1080 display with the cursor at (10, 20). -/
def sampleOsCursorInside : OsReplies :=
  { SM_CXSCREEN := 1920, SM_CYSCREEN := 1080, GetCursorPos := some (10, 20),
    deviceInfo := sampleTouchpadQuery }

/-- Empty registry, empty queue, no message counted. -/
def sampleEmptyState : InputState :=
  { devices := [], eventQueue := [], messageCount := 0 }

/-- Three motions with nonzero deltas: two of device 7 without cursor position, the second
one far beyond the right edge, and one of device 8 with the cursor inside the display. -/
def sampleMotions : List (OsReplies × RAWINPUT) :=
  [(sampleOsNoCursor,
    { dwType := RIM_TYPEMOUSE, hDevice := 7, lLastX := 5, lLastY := 0, usFlags := 0 }),
   (sampleOsNoCursor,
    { dwType := RIM_TYPEMOUSE, hDevice := 7, lLastX := 3000, lLastY := -4, usFlags := 0 }),
   (sampleOsCursorInside,
    { dwType := RIM_TYPEMOUSE, hDevice := 8, lLastX := -1, lLastY := 2, usFlags := 1 })]

/-- One motion with a nonzero delta, received while the cursor is on the second monitor. -/
def sampleMotionSecondMonitor : List (OsReplies × RAWINPUT) :=
  [(sampleOsSecondMonitor,
    { dwType := RIM_TYPEMOUSE, hDevice := 7, lLastX := 5, lLastY := 0, usFlags := 0 })]

/-- A registry that knows device 7 and a queue holding one event of device 9. -/
def sampleKnownState : InputState :=
  { devices := [(7, { hDevice := 7, name := "USB Mouse", x := 100, y := 200 })],
    eventQueue := [removedEvent 9 "Unknown"], messageCount := 3 }

/-- A first motion of device 8, which `sampleKnownState` does not know. -/
def sampleFirstMotion : RAWINPUT :=
  { dwType := RIM_TYPEMOUSE, hDevice := 8, lLastX := 5, lLastY := 0, usFlags := 0 }

/-- Later notifications of device 8: a second motion and its removal. -/
def sampleLaterMessages : List (OsReplies × Message) :=
  [(sampleOsNoCursor, Message.WM_INPUT (some
      { dwType := RIM_TYPEMOUSE, hDevice := 8, lLastX := 1, lLastY := 1, usFlags := 0 })),
   (sampleOsNoCursor, Message.WM_INPUT_DEVICE_CHANGE GIDC_REMOVAL 8)]

/-- A motion of device 7 with zero delta. -/
def sampleIdleMotion : RAWINPUT :=
  { dwType := RIM_TYPEMOUSE, hDevice := 7, lLastX := 0, lLastY := 0, usFlags := 0 }

/-- Replies in which the placeholder cursor is created as handle 99 and the ten standard
cursors load as the handles 10 to 19. -/
def sampleCursorOs : CursorOs :=
  { GetCursor := 3, CreateCursor := 99, GetCursorInfo := some (10, 640, 480),
    LoadCursor := fun name =>
      match name with
      | Idc.IDC_ARROW => 10 | Idc.IDC_IBEAM => 11 | Idc.IDC_HAND => 12 | Idc.IDC_WAIT => 13
      | Idc.IDC_CROSS => 14 | Idc.IDC_SIZEWE => 15 | Idc.IDC_SIZENS => 16
      | Idc.IDC_SIZENESW => 17 | Idc.IDC_SIZENWSE => 18 | Idc.IDC_NO => 19 }

/-- Replies in which `CreateCursor` fails. -/
def sampleCursorOsNoPlaceholder : CursorOs :=
  { sampleCursorOs with CreateCursor := 0 }

/-- The state at program start with every slot showing glyph 1 and display counter 1. -/
def sampleVisibleState : CursorState := CursorState.initial (fun _ => 1) 1

/-- A motion of the known device 7 with delta (3000, -300) and flag bits 5. -/
def sampleBigMotion : RAWINPUT :=
  { dwType := RIM_TYPEMOUSE, hDevice := 7, lLastX := 3000, lLastY := -300, usFlags := 5 }

/-- A hidden state: placeholder 99 in every slot, snapshot saved, display counter -1. -/
def sampleHiddenState : CursorState :=
  { originalCursor := 3, transparentCursor := 99, cursorHidden := true,
    originalCursors := [10, 11, 12, 13, 14, 15, 16, 17, 18, 19], cursorsSaved := true,
    systemCursors := fun _ => 99, displayCount := -1 }

/-- The state at program start with display counter 3 (nested `ShowCursor(TRUE)` calls). -/
def sampleNestedVisibleState : CursorState := CursorState.initial (fun _ => 1) 3

/-- An identifier without `"HID"` that contains a vendor ID and `"PS2"`. -/
def sampleNonHidPath : List Char := "ACPI#VID_046D&PS2#TouchPad".toList

/-- A hide, a query, a second hide, a show, an emergency restore and a last hide. -/
def sampleCalls : List (CursorOs × CursorCall) :=
  [(sampleCursorOs, CursorCall.hideSystemCursor), (sampleCursorOs, CursorCall.getCursorState),
   (sampleCursorOsNoPlaceholder, CursorCall.hideSystemCursor), (sampleCursorOs, CursorCall.showSystemCursor),
   (sampleCursorOs, CursorCall.emergencyRestoreCursors), (sampleCursorOs, CursorCall.consoleCtrlHandler 0),
   (sampleCursorOs, CursorCall.hideSystemCursor)]

theorem stdFind_isSome_iff (s pat : List Char) :
    (stdFind s pat).isSome = true ↔ pat <:+: s := by
  induction s with
  | nil =>
    simp only [stdFind]
    split
    · rename_i h
      simp only [Option.isSome_some, true_iff]
      exact (List.isPrefixOf_iff_prefix.1 h).isInfix
    · rename_i h
      simp only [Option.isSome_none, Bool.false_eq_true, false_iff]
      intro hin
      apply h
      rw [List.infix_nil] at hin
      subst hin
      rfl
  | cons c s ih =>
    simp only [stdFind]
    split
    · rename_i h
      simp only [Option.isSome_some, true_iff]
      exact (List.isPrefixOf_iff_prefix.1 h).isInfix
    · rename_i h
      rw [Option.isSome_map', ih, List.infix_cons_iff]
      constructor
      · intro h1; exact Or.inr h1
      · rintro (h1 | h1)
        · exact absurd (List.isPrefixOf_iff_prefix.2 h1) h
        · exact h1

theorem foundIn_iff (s : List Char) (pat : String) :
    foundIn s pat = true ↔ pat.toList <:+: s := by
  unfold foundIn
  exact stdFind_isSome_iff s pat.toList

theorem foundIn_eq_false_iff (s : List Char) (pat : String) :
    foundIn s pat = false ↔ ¬ pat.toList <:+: s := by
  rw [← foundIn_iff]; simp

/-- With `"HID"` and `"VID_046D"` both present the if-chain takes its first leaf. -/
theorem classifyCleanPath_logitech (cleanPath : List Char)
    (hHID : "HID".toList <:+: cleanPath) (hVID : "VID_046D".toList <:+: cleanPath) :
    classifyCleanPath cleanPath = "Logitech Mouse" := by
  have h1 := (foundIn_iff cleanPath "HID").2 hHID
  have h2 := (foundIn_iff cleanPath "VID_046D").2 hVID
  simp [classifyCleanPath, h1, h2]

/-- With `"HID"` and `"TouchPad"` present and no vendor ID the if-chain reaches the nested
touchpad leaf. -/
theorem classifyCleanPath_hid_touchpad (cleanPath : List Char)
    (hHID : "HID".toList <:+: cleanPath) (hTP : "TouchPad".toList <:+: cleanPath)
    (h046D : ¬ "VID_046D".toList <:+: cleanPath) (h1532 : ¬ "VID_1532".toList <:+: cleanPath)
    (h045E : ¬ "VID_045E".toList <:+: cleanPath) :
    classifyCleanPath cleanPath = "Trackpad" := by
  have h1 := (foundIn_iff cleanPath "HID").2 hHID
  have h2 := (foundIn_iff cleanPath "TouchPad").2 hTP
  have h3 := (foundIn_eq_false_iff cleanPath "VID_046D").2 h046D
  have h4 := (foundIn_eq_false_iff cleanPath "VID_1532").2 h1532
  have h5 := (foundIn_eq_false_iff cleanPath "VID_045E").2 h045E
  simp [classifyCleanPath, h1, h2, h3, h4, h5]

/-! ## Claims on the classifier -/

/-- C9: whenever the device-info query succeeds and the printable-ASCII content of the
identifier contains both `"HID"` and `"VID_046D"`, `GetDeviceName` returns
`"Logitech Mouse"`, whatever else the identifier contains. -/
theorem GetDeviceName_hid_vid046D (q : DeviceInfoQuery)
    (hsize : q.nameSize > 0) (hret : q.ret > 0)
    (hHID : "HID".toList <:+: cleanPathOf (devicePathOf q.name))
    (hVID : "VID_046D".toList <:+: cleanPathOf (devicePathOf q.name)) :
    GetDeviceName q = "Logitech Mouse" := by
  simp only [GetDeviceName, hsize, hret, if_true]
  exact classifyCleanPath_logitech _ hHID hVID

theorem GetDeviceName_hid_vid046D_witness :
    sampleLogitechQuery.nameSize > 0 ∧ sampleLogitechQuery.ret > 0 ∧
    "HID".toList <:+: cleanPathOf (devicePathOf sampleLogitechQuery.name) ∧
    "VID_046D".toList <:+: cleanPathOf (devicePathOf sampleLogitechQuery.name) ∧
    GetDeviceName sampleLogitechQuery = "Logitech Mouse" :=
  ⟨by decide, by decide, by decide, by decide,
   GetDeviceName_hid_vid046D sampleLogitechQuery (by decide) (by decide) (by decide)
     (by decide)⟩

/-- C10: whenever the device-info query succeeds and the printable-ASCII content of the
identifier contains `"HID"` and `"TouchPad"` and none of `"VID_046D"`, `"VID_1532"`,
`"VID_045E"`, `GetDeviceName` returns `"Trackpad"` and not `"USB Mouse"`; nothing is assumed
about `"PS2"`. -/
theorem GetDeviceName_hid_touchpad (q : DeviceInfoQuery)
    (hsize : q.nameSize > 0) (hret : q.ret > 0)
    (hHID : "HID".toList <:+: cleanPathOf (devicePathOf q.name))
    (hTP : "TouchPad".toList <:+: cleanPathOf (devicePathOf q.name))
    (h046D : ¬ "VID_046D".toList <:+: cleanPathOf (devicePathOf q.name))
    (h1532 : ¬ "VID_1532".toList <:+: cleanPathOf (devicePathOf q.name))
    (h045E : ¬ "VID_045E".toList <:+: cleanPathOf (devicePathOf q.name)) :
    GetDeviceName q = "Trackpad" ∧ GetDeviceName q ≠ "USB Mouse" := by
  have h : GetDeviceName q = "Trackpad" := by
    simp only [GetDeviceName, hsize, hret, if_true]
    exact classifyCleanPath_hid_touchpad _ hHID hTP h046D h1532 h045E
  rw [h]
  exact ⟨rfl, by decide⟩

theorem GetDeviceName_hid_touchpad_witness :
    sampleTouchpadQuery.nameSize > 0 ∧ sampleTouchpadQuery.ret > 0 ∧
    "PS2".toList <:+: cleanPathOf (devicePathOf sampleTouchpadQuery.name) ∧
    GetDeviceName sampleTouchpadQuery = "Trackpad" ∧
    GetDeviceName sampleTouchpadQuery ≠ "USB Mouse" :=
  ⟨by decide, by decide, by decide,
   GetDeviceName_hid_touchpad sampleTouchpadQuery (by decide) (by decide) (by decide)
     (by decide) (by decide) (by decide) (by decide)⟩

/-! ## Lemmas on the registry and the queue -/

theorem mapFind_mapAssign_self (devices : DeviceMap) (h : HANDLE) (d : MouseDevice) :
    mapFind (mapAssign devices h d) h = some d := by
  induction devices with
  | nil => simp [mapAssign, mapFind, List.lookup]
  | cons p rest ih =>
    obtain ⟨k, v⟩ := p
    simp only [mapAssign]
    split
    · simp [mapFind, List.lookup]
    · rename_i hk
      have hk' : (h == k) = false := by
        simp only [beq_iff_eq] at hk
        simp only [beq_eq_false_iff_ne, ne_eq]
        exact fun e => hk e.symm
      simp only [mapFind, List.lookup, hk']
      exact ih

theorem mem_mapAssign (devices : DeviceMap) (h : HANDLE) (d : MouseDevice)
    (p : HANDLE × MouseDevice) (hp : p ∈ mapAssign devices h d) :
    p = (h, d) ∨ p ∈ devices := by
  induction devices with
  | nil =>
    simp only [mapAssign, List.mem_singleton] at hp
    exact Or.inl hp
  | cons q rest ih =>
    obtain ⟨k, v⟩ := q
    simp only [mapAssign] at hp
    split at hp
    · rcases List.mem_cons.1 hp with h1 | h1
      · exact Or.inl h1
      · exact Or.inr (List.mem_cons_of_mem _ h1)
    · rcases List.mem_cons.1 hp with h1 | h1
      · exact Or.inr (h1 ▸ List.mem_cons_self _ _)
      · rcases ih h1 with h2 | h2
        · exact Or.inl h2
        · exact Or.inr (List.mem_cons_of_mem _ h2)

theorem positionsInBounds_mapAssign (width height : Int) (devices : DeviceMap) (h : HANDLE)
    (d : MouseDevice) (hs : positionsInBounds width height devices)
    (hd : pointInBounds width height (d.x, d.y)) :
    positionsInBounds width height (mapAssign devices h d) := by
  intro p hp
  rcases mem_mapAssign devices h d p hp with h1 | h1
  · subst h1; exact hd
  · exact hs p h1

theorem positionsInBounds_mapErase (width height : Int) (devices : DeviceMap) (h : HANDLE)
    (hs : positionsInBounds width height devices) :
    positionsInBounds width height (mapErase devices h) := by
  intro p hp
  exact hs p (List.mem_of_mem_filter hp)

theorem foldl_queuePush (events : List MouseEvent) (eventQueue : List MouseEvent) :
    events.foldl queuePush eventQueue = eventQueue ++ events := by
  induction events generalizing eventQueue with
  | nil => simp
  | cons e rest ih => simp [List.foldl, ih, queuePush]

/-- The window procedure only ever appends to the queue. -/
theorem RawInputWndProc_queue_grows (os : OsReplies) (msg : Message) (s : InputState) :
    ∃ added, (RawInputWndProc os msg s).eventQueue = s.eventQueue ++ added := by
  cases msg with
  | WM_INPUT raw =>
    cases raw with
    | none => exact ⟨[], by simp [RawInputWndProc]⟩
    | some raw =>
      simp only [RawInputWndProc]
      split
      · simp only [moveIfDelta, registerIfNew, queuePush]
        split <;> split <;> simp
      · exact ⟨[], by simp⟩
  | WM_INPUT_DEVICE_CHANGE wParam lParam =>
    simp only [RawInputWndProc]
    split
    · simp only [removeDevice, queuePush]
      split <;> simp
    · exact ⟨[], by simp⟩
  | other => exact ⟨[], by simp [RawInputWndProc]⟩

theorem runWndProc_queue_grows (msgs : List (OsReplies × Message)) (s : InputState) :
    ∃ added, (runWndProc msgs s).eventQueue = s.eventQueue ++ added := by
  induction msgs generalizing s with
  | nil => exact ⟨[], by simp [runWndProc]⟩
  | cons m rest ih =>
    obtain ⟨a1, h1⟩ := RawInputWndProc_queue_grows m.1 m.2 s
    obtain ⟨a2, h2⟩ := ih (RawInputWndProc m.1 m.2 s)
    refine ⟨a1 ++ a2, ?_⟩
    simp only [runWndProc, List.foldl] at h2 ⊢
    rw [h2, h1, List.append_assoc]

/-! ## Claims on the capture adapter -/

/-- C1: from an empty registry and an empty queue, the notifications attach(h1),
move(h1, 5, 0), move(h1, 0, 0), detach(h1) followed by one drain yield exactly three events,
in this order: the added event of h1 at the screen centre, the move event of h1 with delta
(5, 0), and the removed event of h1; for every handle, screen size, flags, device name and
outcome of the position query. -/
theorem scenario_attach_move_idle_detach (h1 : HANDLE) (os1 os2 os3 os4 : OsReplies)
    (flags2 flags3 : Nat) (count : Int) :
    (drainStep (runWndProc
      [(os1, Message.WM_INPUT_DEVICE_CHANGE GIDC_ARRIVAL h1),
       (os2, Message.WM_INPUT (some
          { dwType := RIM_TYPEMOUSE, hDevice := h1, lLastX := 5, lLastY := 0,
            usFlags := flags2 })),
       (os3, Message.WM_INPUT (some
          { dwType := RIM_TYPEMOUSE, hDevice := h1, lLastX := 0, lLastY := 0,
            usFlags := flags3 })),
       (os4, Message.WM_INPUT_DEVICE_CHANGE GIDC_REMOVAL h1)]
      { devices := [], eventQueue := [], messageCount := count })).1
    = [ { hDevice := h1, deviceName := GetDeviceName os2.deviceInfo,
          x := Int.tdiv os2.SM_CXSCREEN 2, y := Int.tdiv os2.SM_CYSCREEN 2,
          deltaX := 0, deltaY := 0, flags := 0, type := "device", action := "added" },
        { hDevice := h1, deviceName := GetDeviceName os2.deviceInfo,
          x := (match os2.GetCursorPos with
                | some cursorPos => cursorPos.1
                | none => max 0 (min (wrapInt32 (Int.tdiv os2.SM_CXSCREEN 2 + 5))
                                  (os2.SM_CXSCREEN - 1))),
          y := (match os2.GetCursorPos with
                | some cursorPos => cursorPos.2
                | none => max 0 (min (wrapInt32 (Int.tdiv os2.SM_CYSCREEN 2 + 0))
                                  (os2.SM_CYSCREEN - 1))),
          deltaX := 5, deltaY := 0, flags := (flags2 : Int), type := "move", action := "" },
        { hDevice := h1, deviceName := GetDeviceName os2.deviceInfo,
          x := 0, y := 0, deltaX := 0, deltaY := 0, flags := 0,
          type := "device", action := "removed" } ] := by
  simp only [runWndProc, List.foldl, RawInputWndProc, GIDC_ARRIVAL, GIDC_REMOVAL,
    RIM_TYPEMOUSE]
  simp [registerIfNew, moveIfDelta, removeDevice, mapFind_mapAssign_self, mapIndex, drainStep,
    queueSwap, queuePush, addedEvent, moveEvent, removedEvent, updatePosition, mapFind,
    mapAssign]
  cases os2.GetCursorPos <;> simp

theorem center_inBounds (width height : Int) (hw : width ≥ 1) (hh : height ≥ 1) :
    pointInBounds width height (Int.tdiv width 2, Int.tdiv height 2) := by
  unfold pointInBounds
  simp only
  rw [Int.tdiv_eq_ediv (by omega) (by omega), Int.tdiv_eq_ediv (by omega) (by omega)]
  omega

theorem updatePosition_inBounds (os : OsReplies) (raw : RAWINPUT) (device : MouseDevice)
    (hw : os.SM_CXSCREEN ≥ 1) (hh : os.SM_CYSCREEN ≥ 1)
    (hcur : ∀ p ∈ os.GetCursorPos, pointInBounds os.SM_CXSCREEN os.SM_CYSCREEN p) :
    pointInBounds os.SM_CXSCREEN os.SM_CYSCREEN
      ((updatePosition os raw device).x, (updatePosition os raw device).y) := by
  unfold updatePosition
  cases hc : os.GetCursorPos with
  | some p =>
    simp only
    exact hcur p (by simp [hc])
  | none =>
    simp only [pointInBounds]
    omega

/-- One call of the window procedure keeps every position on the display when the position
query fails or reports a point on the display. -/
theorem RawInputWndProc_positionsInBounds (os : OsReplies) (msg : Message) (s : InputState)
    (hw : os.SM_CXSCREEN ≥ 1) (hh : os.SM_CYSCREEN ≥ 1)
    (hcur : ∀ p ∈ os.GetCursorPos, pointInBounds os.SM_CXSCREEN os.SM_CYSCREEN p)
    (hs : positionsInBounds os.SM_CXSCREEN os.SM_CYSCREEN s.devices) :
    positionsInBounds os.SM_CXSCREEN os.SM_CYSCREEN (RawInputWndProc os msg s).devices := by
  have hreg : ∀ h, positionsInBounds os.SM_CXSCREEN os.SM_CYSCREEN
      (registerIfNew os h { s with messageCount := wrapInt32 (s.messageCount + 1) }).devices := by
    intro h
    simp only [registerIfNew]
    split
    · exact positionsInBounds_mapAssign _ _ _ _ _ hs (center_inBounds _ _ hw hh)
    · exact hs
  cases msg with
  | WM_INPUT raw =>
    cases raw with
    | none => simpa [RawInputWndProc] using hs
    | some raw =>
      simp only [RawInputWndProc]
      split
      · simp only [moveIfDelta]
        split
        · exact positionsInBounds_mapAssign _ _ _ _ _ (hreg _)
            (updatePosition_inBounds os raw _ hw hh hcur)
        · exact hreg _
      · exact hs
  | WM_INPUT_DEVICE_CHANGE wParam lParam =>
    simp only [RawInputWndProc]
    split
    · simp only [removeDevice]
      split
      · exact positionsInBounds_mapErase _ _ _ _ hs
      · exact hs
    · exact hs
  | other => simpa [RawInputWndProc] using hs

theorem runWndProc_positionsInBounds (width height : Int) (hw : width ≥ 1) (hh : height ≥ 1)
    (msgs : List (OsReplies × Message)) (s : InputState)
    (hos : ∀ m ∈ msgs, m.1.SM_CXSCREEN = width ∧ m.1.SM_CYSCREEN = height ∧
      ∀ p ∈ m.1.GetCursorPos, pointInBounds width height p)
    (hs : positionsInBounds width height s.devices) :
    positionsInBounds width height (runWndProc msgs s).devices := by
  induction msgs generalizing s with
  | nil => simpa [runWndProc] using hs
  | cons m rest ih =>
    simp only [runWndProc, List.foldl]
    obtain ⟨h1, h2, h3⟩ := hos m (List.mem_cons_self _ _)
    apply ih
    · intro m' hm'
      exact hos m' (List.mem_cons_of_mem _ hm')
    · have := RawInputWndProc_positionsInBounds m.1 m.2 s (by omega) (by omega)
        (by rw [h1, h2]; exact h3) (by rw [h1, h2]; exact hs)
      rw [h1, h2] at this
      exact this

/-- C2 (amended): on a display of width >= 1 and height >= 1, starting from a registry whose
positions are all on the display, after each of a sequence of motion notifications with
nonzero deltas, every one of which finds the absolute-position query either unavailable or
reporting a point on the display, every registered position (x, y) satisfies
0 <= x <= width-1 and 0 <= y <= height-1. -/
theorem motions_keep_positionsInBounds (width height : Int) (hw : width ≥ 1) (hh : height ≥ 1)
    (motions : List (OsReplies × RAWINPUT)) (s : InputState)
    (_hmotion : ∀ m ∈ motions, m.2.dwType = RIM_TYPEMOUSE ∧ (m.2.lLastX ≠ 0 ∨ m.2.lLastY ≠ 0))
    (hscreen : ∀ m ∈ motions, m.1.SM_CXSCREEN = width ∧ m.1.SM_CYSCREEN = height)
    (hcursor : ∀ m ∈ motions, ∀ p ∈ m.1.GetCursorPos, pointInBounds width height p)
    (hs : positionsInBounds width height s.devices) (k : Nat) :
    positionsInBounds width height (runWndProc (motionMessages (motions.take k)) s).devices := by
  apply runWndProc_positionsInBounds width height hw hh _ s _ hs
  intro m hm
  simp only [motionMessages, List.mem_map] at hm
  obtain ⟨m0, hm0, rfl⟩ := hm
  have hmem := List.mem_of_mem_take hm0
  exact ⟨(hscreen m0 hmem).1, (hscreen m0 hmem).2, hcursor m0 hmem⟩

theorem motions_keep_positionsInBounds_witness :
    positionsInBounds 1920 1080
      (runWndProc (motionMessages (sampleMotions.take 3)) sampleEmptyState).devices :=
  motions_keep_positionsInBounds 1920 1080 (by decide) (by decide) sampleMotions
    sampleEmptyState (by decide) (by decide) (by decide) (by decide) 3

/-- C2 (counterexample): one motion notification with delta (5, 0) on a 1920 x 1080 display,
received while `GetCursorPos` reports (2500, -3), leaves the device at (2500, -3). -/
theorem motion_leaves_bounds :
    (runWndProc (motionMessages sampleMotionSecondMonitor) sampleEmptyState).devices
      = [(7, { hDevice := 7, name := "Logitech Mouse", x := 2500, y := -3 })] ∧
    ¬ positionsInBounds 1920 1080
      (runWndProc (motionMessages sampleMotionSecondMonitor) sampleEmptyState).devices := by
  decide
/-- The events a first motion notification appends: the added event, then the move event
when the delta is nonzero. -/
theorem firstMotion_queue (os : OsReplies) (raw : RAWINPUT) (s : InputState)
    (hmouse : raw.dwType = RIM_TYPEMOUSE) (hnew : mapFind s.devices raw.hDevice = none) :
    ∃ rest, (RawInputWndProc os (Message.WM_INPUT (some raw)) s).eventQueue
        = s.eventQueue ++
          addedEvent { hDevice := raw.hDevice, name := GetDeviceName os.deviceInfo,
                       x := Int.tdiv os.SM_CXSCREEN 2, y := Int.tdiv os.SM_CYSCREEN 2 } :: rest
      ∧ ∀ e ∈ rest, e.type = "move" := by
  simp only [RawInputWndProc, hmouse, beq_self_eq_true, if_true, moveIfDelta, registerIfNew,
    hnew, Option.isNone_none, queuePush]
  split
  · exact ⟨[moveEvent (updatePosition os raw (mapIndex (mapAssign s.devices raw.hDevice
        { hDevice := raw.hDevice, name := GetDeviceName os.deviceInfo,
          x := Int.tdiv os.SM_CXSCREEN 2, y := Int.tdiv os.SM_CYSCREEN 2 }) raw.hDevice))
      raw.hDevice raw], by simp, by simp [moveEvent]⟩
  · exact ⟨[], by simp, by simp⟩

/-- C3 (amended): for a handle absent from the registry of which the queue holds no move event,
the first motion notification enqueues exactly one added event for it, and in the queue
after any further notifications every move event of the handle comes after that added
event; a disconnect notification for that absent handle enqueues only the removed event
with the name `"Unknown"`. -/
theorem firstMotion_attached_once_before_moves (os : OsReplies) (raw : RAWINPUT)
    (s : InputState) (later : List (OsReplies × Message))
    (hmouse : raw.dwType = RIM_TYPEMOUSE)
    (hnew : mapFind s.devices raw.hDevice = none)
    (hfirst : ∀ e ∈ s.eventQueue, isMovedFor raw.hDevice e = false) :
    (∃ rest, (RawInputWndProc os (Message.WM_INPUT (some raw)) s).eventQueue
        = s.eventQueue ++
          addedEvent { hDevice := raw.hDevice, name := GetDeviceName os.deviceInfo,
                       x := Int.tdiv os.SM_CXSCREEN 2, y := Int.tdiv os.SM_CYSCREEN 2 } :: rest
      ∧ List.countP (isAttachedFor raw.hDevice)
          (addedEvent { hDevice := raw.hDevice, name := GetDeviceName os.deviceInfo,
                        x := Int.tdiv os.SM_CXSCREEN 2, y := Int.tdiv os.SM_CYSCREEN 2 }
            :: rest) = 1) ∧
    (∀ before e after,
      (runWndProc later (RawInputWndProc os (Message.WM_INPUT (some raw)) s)).eventQueue
        = before ++ e :: after →
      isMovedFor raw.hDevice e = true →
      addedEvent { hDevice := raw.hDevice, name := GetDeviceName os.deviceInfo,
                   x := Int.tdiv os.SM_CXSCREEN 2, y := Int.tdiv os.SM_CYSCREEN 2 }
        ∈ before) ∧
    (RawInputWndProc os (Message.WM_INPUT_DEVICE_CHANGE GIDC_REMOVAL raw.hDevice) s).eventQueue
      = s.eventQueue ++ [removedEvent raw.hDevice "Unknown"] := by
  obtain ⟨rest, hq, hrest⟩ := firstMotion_queue os raw s hmouse hnew
  refine ⟨?_, ?_, ?_⟩
  rotate_left 2
  · simp [RawInputWndProc, removeDevice, hnew, queuePush]
  · refine ⟨rest, hq, ?_⟩
    rw [List.countP_cons_of_pos]
    · have : List.countP (isAttachedFor raw.hDevice) rest = 0 := by
        rw [List.countP_eq_zero]
        intro e he
        simp [isAttachedFor, hrest e he]
      omega
    · simp [isAttachedFor, addedEvent]
  · intro before e after hsplit hmoved
    obtain ⟨more, hmore⟩ := runWndProc_queue_grows later
      (RawInputWndProc os (Message.WM_INPUT (some raw)) s)
    rw [hmore, hq, List.append_assoc, List.cons_append] at hsplit
    rcases List.append_eq_append_iff.1 hsplit with ⟨a', h1, h2⟩ | ⟨c', h1, h2⟩
    · cases a' with
      | nil =>
        simp only [List.nil_append, List.cons.injEq] at h2
        rw [← h2.1] at hmoved
        simp [isMovedFor, addedEvent] at hmoved
      | cons x a'' =>
        simp only [List.cons_append, List.cons.injEq] at h2
        rw [h1, ← h2.1]
        simp
    · cases c' with
      | nil =>
        simp only [List.nil_append, List.cons.injEq] at h2
        rw [h2.1] at hmoved
        simp [isMovedFor, addedEvent] at hmoved
      | cons x c'' =>
        simp only [List.cons_append, List.cons.injEq] at h2
        have hmem : e ∈ s.eventQueue := by
          rw [h1, h2.1]
          simp
        rw [hfirst e hmem] at hmoved
        exact absurd hmoved (by decide)

theorem firstMotion_attached_once_before_moves_witness :
    (∃ rest, (RawInputWndProc sampleOsNoCursor (Message.WM_INPUT (some sampleFirstMotion))
          sampleKnownState).eventQueue
        = sampleKnownState.eventQueue ++
          addedEvent { hDevice := 8, name := "Logitech Mouse", x := 960, y := 540 } :: rest
      ∧ List.countP (isAttachedFor 8)
          (addedEvent { hDevice := 8, name := "Logitech Mouse", x := 960, y := 540 }
            :: rest) = 1) ∧
    (∀ before e after,
      (runWndProc sampleLaterMessages (RawInputWndProc sampleOsNoCursor
          (Message.WM_INPUT (some sampleFirstMotion)) sampleKnownState)).eventQueue
        = before ++ e :: after →
      isMovedFor 8 e = true →
      addedEvent { hDevice := 8, name := "Logitech Mouse", x := 960, y := 540 } ∈ before) ∧
    (RawInputWndProc sampleOsNoCursor (Message.WM_INPUT_DEVICE_CHANGE GIDC_REMOVAL 8)
        sampleKnownState).eventQueue
      = sampleKnownState.eventQueue ++ [removedEvent 8 "Unknown"] :=
  firstMotion_attached_once_before_moves sampleOsNoCursor sampleFirstMotion sampleKnownState
    sampleLaterMessages (by decide) (by decide) (by decide)

/-- C3 (counterexample): a disconnect notification for handle 7, absent from the empty
registry, enqueues the removed event with the name `"Unknown"` and no added event. -/
theorem removal_of_unseen_handle_attaches_nothing :
    (RawInputWndProc sampleOsNoCursor (Message.WM_INPUT_DEVICE_CHANGE GIDC_REMOVAL 7)
        sampleEmptyState).eventQueue = [removedEvent 7 "Unknown"] ∧
    List.countP (isAttachedFor 7)
      (RawInputWndProc sampleOsNoCursor (Message.WM_INPUT_DEVICE_CHANGE GIDC_REMOVAL 7)
        sampleEmptyState).eventQueue ≠ 1 := by
  decide

/-- C4: for a handle already in the registry, a motion notification with dx = 0 and dy = 0
leaves the queue as it was (no event is enqueued) and leaves the registry as it was. -/
theorem zeroDelta_known_handle_no_event (os : OsReplies) (raw : RAWINPUT) (s : InputState)
    (hknown : (mapFind s.devices raw.hDevice).isSome = true)
    (hx : raw.lLastX = 0) (hy : raw.lLastY = 0) :
    (RawInputWndProc os (Message.WM_INPUT (some raw)) s).eventQueue = s.eventQueue ∧
    (RawInputWndProc os (Message.WM_INPUT (some raw)) s).devices = s.devices := by
  have hnone : (mapFind s.devices raw.hDevice).isNone = false := by
    cases h : mapFind s.devices raw.hDevice with
    | none => rw [h] at hknown; exact absurd hknown (by decide)
    | some d => rfl
  simp only [RawInputWndProc, moveIfDelta, registerIfNew, hnone, hx, hy]
  split <;> simp

theorem zeroDelta_known_handle_no_event_witness :
    (mapFind sampleKnownState.devices sampleIdleMotion.hDevice).isSome = true ∧
    (RawInputWndProc sampleOsCursorInside (Message.WM_INPUT (some sampleIdleMotion))
      sampleKnownState).eventQueue = sampleKnownState.eventQueue ∧
    (RawInputWndProc sampleOsCursorInside (Message.WM_INPUT (some sampleIdleMotion))
      sampleKnownState).devices = sampleKnownState.devices :=
  ⟨by decide,
   zeroDelta_known_handle_no_event sampleOsCursorInside sampleIdleMotion sampleKnownState
     (by decide) (by decide) (by decide)⟩

/-! ## Claims on the event queue -/

/-- C5: after a drain, any sequence of pushes followed by the drain step returns exactly the
pushed events, each once and in push order, and leaves the queue empty; a further drain
with no push in between returns the empty sequence. -/
theorem drain_returns_pushes_once (s : InputState) (events : List MouseEvent) :
    (drainStep { (drainStep s).2 with
        eventQueue := events.foldl queuePush (drainStep s).2.eventQueue }).1 = events ∧
    (drainStep { (drainStep s).2 with
        eventQueue := events.foldl queuePush (drainStep s).2.eventQueue }).2.eventQueue = [] ∧
    (drainStep (drainStep { (drainStep s).2 with
        eventQueue := events.foldl queuePush (drainStep s).2.eventQueue }).2).1 = [] := by
  simp [drainStep, queueSwap, foldl_queuePush]

/-! ## Lemmas on the cursor functions -/

theorem hideCountLoop_of_neg (c : Int) (hc : c < 0) : hideCountLoop c = c := by
  rw [hideCountLoop]
  simp only [ge_iff_le, ite_eq_right_iff]
  intro h
  omega

theorem hideCountLoop_natCast (n : Nat) : hideCountLoop (n : Int) = -1 := by
  induction n with
  | zero =>
    rw [hideCountLoop]
    simp only [ShowCursor, Bool.false_eq_true, if_false]
    rw [hideCountLoop_of_neg] <;> simp
  | succ n ih =>
    rw [hideCountLoop]
    have h : ((n + 1 : Nat) : Int) ≥ 0 := by omega
    simp only [h, if_true, ShowCursor, Bool.false_eq_true, if_false]
    have : ((n + 1 : Nat) : Int) - 1 = (n : Int) := by omega
    rw [this, ih]

theorem hideCountLoop_of_nonneg (c : Int) (hc : c ≥ 0) : hideCountLoop c = -1 := by
  obtain ⟨n, rfl⟩ := Int.eq_ofNat_of_zero_le hc
  exact hideCountLoop_natCast n

theorem showCountLoop_of_nonneg (c : Int) (hc : c ≥ 0) : showCountLoop c = c := by
  rw [showCountLoop]
  simp only [ite_eq_right_iff]
  intro h
  omega

theorem showCountLoop_neg_natCast (n : Nat) : showCountLoop (-(n : Int)) = 0 := by
  induction n with
  | zero => rw [showCountLoop_of_nonneg] <;> simp
  | succ n ih =>
    rw [showCountLoop]
    have h : -((n + 1 : Nat) : Int) < 0 := by omega
    simp only [h, if_true, ShowCursor]
    have : -((n + 1 : Nat) : Int) + 1 = -(n : Int) := by omega
    rw [this, ih]

theorem showCountLoop_of_neg (c : Int) (hc : c < 0) : showCountLoop c = 0 := by
  obtain ⟨n, hn⟩ := Int.eq_ofNat_of_zero_le (show 0 ≤ -c by omega)
  have : c = -(n : Int) := by omega
  rw [this]
  exact showCountLoop_neg_natCast n

/-- The counter after the `ShowCursor(FALSE)` statements of `HideSystemCursor`. -/
theorem hide_counter (c : Int) :
    hideCountLoop (ShowCursor false c) = if c ≥ 1 then -1 else c - 1 := by
  simp only [ShowCursor, Bool.false_eq_true, if_false]
  split
  · exact hideCountLoop_of_nonneg _ (by omega)
  · exact hideCountLoop_of_neg _ (by omega)

/-- The counter after the `ShowCursor(TRUE)` statements of the restoring functions. -/
theorem show_counter (c : Int) :
    showCountLoop (ShowCursor true c) = if c < -1 then 0 else c + 1 := by
  simp only [ShowCursor, if_true]
  split
  · exact showCountLoop_of_neg _ (by omega)
  · exact showCountLoop_of_nonneg _ (by omega)

theorem setIfLoaded_same (d : HCURSOR) (id : Nat) (t : Nat → HCURSOR) (hd : d ≠ 0) :
    setIfLoaded d id t id = d := by
  simp [setIfLoaded, hd, SetSystemCursor, CopyCursor]

theorem setIfLoaded_other (d : HCURSOR) (id id' : Nat) (t : Nat → HCURSOR) (hne : id' ≠ id) :
    setIfLoaded d id t id' = t id' := by
  unfold setIfLoaded
  split
  · simp [SetSystemCursor, Function.update, hne]
  · rfl

/-- Every one of the ten slots holds the default the restoring statements loaded for it,
when that default is not null. -/
theorem ShowSystemCursor_slots (os : CursorOs) (s : CursorState) (hhidden : s.cursorHidden = true) :
    ∀ p ∈ slotNames, os.LoadCursor p.2 ≠ 0 →
      (ShowSystemCursor os s).2.systemCursors p.1 = os.LoadCursor p.2 := by
  intro p hp hd
  simp only [slotNames, List.mem_cons, List.mem_singleton, List.not_mem_nil, or_false] at hp
  simp only [ShowSystemCursor, hhidden, if_true]
  rcases hp with h | h | h | h | h | h | h | h | h | h <;> subst h <;>
    simp [setIfLoaded_other, setIfLoaded_same _ _ _ hd]

theorem EmergencyRestoreCursors_slots (os : CursorOs) (s : CursorState) :
    ∀ p ∈ slotNames, os.LoadCursor p.2 ≠ 0 →
      (EmergencyRestoreCursors os s).2.systemCursors p.1 = os.LoadCursor p.2 := by
  intro p hp hd
  simp only [slotNames, List.mem_cons, List.mem_singleton, List.not_mem_nil, or_false] at hp
  simp only [EmergencyRestoreCursors]
  rcases hp with h | h | h | h | h | h | h | h | h | h <;> subst h <;>
    simp [setIfLoaded_other, setIfLoaded_same _ _ _ hd]

/-- A hide from the visible state succeeds exactly when the placeholder cursor exists or can
be created; it then ends hidden with the counter pushed below zero. -/
theorem HideSystemCursor_success (os : CursorOs) (s : CursorState)
    (hvisible : s.cursorHidden = false)
    (hplaceholder : s.transparentCursor ≠ 0 ∨ os.CreateCursor ≠ 0) :
    (HideSystemCursor os s).1 = true ∧ (HideSystemCursor os s).2.cursorHidden = true ∧
    (HideSystemCursor os s).2.displayCount
      = hideCountLoop (ShowCursor false s.displayCount) := by
  by_cases h0 : s.transparentCursor = 0
  · have h1 : os.CreateCursor ≠ 0 := by
      rcases hplaceholder with h | h
      · exact absurd h0 h
      · exact h
    simp [HideSystemCursor, hvisible, h0, h1, CreateTransparentCursor]
    split <;> simp
  · simp [HideSystemCursor, hvisible, h0]
    split <;> simp

theorem HideSystemCursor_true_hidden (os : CursorOs) (s : CursorState)
    (hok : (HideSystemCursor os s).1 = true) : (HideSystemCursor os s).2.cursorHidden = true := by
  cases hh : s.cursorHidden with
  | true => simp [HideSystemCursor, hh]
  | false =>
    by_cases hp : s.transparentCursor ≠ 0 ∨ os.CreateCursor ≠ 0
    · exact (HideSystemCursor_success os s hh hp).2.1
    · simp only [not_or, not_not] at hp
      simp [HideSystemCursor, hh, hp.1, hp.2, CreateTransparentCursor] at hok

/-- After a hide that returns true from a visible state the placeholder is installed. -/
theorem HideSystemCursor_installs (os : CursorOs) (s : CursorState)
    (hvisible : s.cursorHidden = false)
    (hhidden : (HideSystemCursor os s).2.cursorHidden = true) :
    placeholderInstalled (HideSystemCursor os s).2 := by
  by_cases h0 : s.transparentCursor = 0
  · by_cases h1 : os.CreateCursor = 0
    · simp [HideSystemCursor, hvisible, h0, h1, CreateTransparentCursor] at hhidden
    · unfold placeholderInstalled
      simp only [slotNames, List.mem_cons, List.mem_singleton, List.not_mem_nil, or_false,
        forall_eq_or_imp, forall_eq]
      cases hsaved : s.cursorsSaved <;>
        simp [HideSystemCursor, hvisible, h0, h1, hsaved, CreateTransparentCursor,
          SetSystemCursor, CopyCursor, Function.update]
  · unfold placeholderInstalled
    simp only [slotNames, List.mem_cons, List.mem_singleton, List.not_mem_nil, or_false,
      forall_eq_or_imp, forall_eq]
    cases hsaved : s.cursorsSaved <;>
      simp [HideSystemCursor, hvisible, h0, hsaved, SetSystemCursor, CopyCursor,
        Function.update]

/-- C7 (amended): when the first hide() succeeds (returns true), a second hide() is a no-op
that returns true, so hide();hide() ends in the state of hide(); a show() after a show() is
a no-op that returns false, so show();show() ends in the state of show(); and show() in a
visible state is a no-op that returns false. -/
theorem hide_show_idempotent (os1 os2 os3 os4 : CursorOs) (s : CursorState)
    (hok : (HideSystemCursor os1 s).1 = true) :
    HideSystemCursor os2 (HideSystemCursor os1 s).2 = (true, (HideSystemCursor os1 s).2) ∧
    ShowSystemCursor os4 (ShowSystemCursor os3 s).2 = (false, (ShowSystemCursor os3 s).2) ∧
    (s.cursorHidden = false → ShowSystemCursor os3 s = (false, s)) := by
  refine ⟨?_, ?_, ?_⟩
  · have hh := HideSystemCursor_true_hidden os1 s hok
    rw [HideSystemCursor]
    simp [hh]
  · have hv : (ShowSystemCursor os3 s).2.cursorHidden = false := by
      cases hh : s.cursorHidden <;> simp [ShowSystemCursor, hh]
    rw [ShowSystemCursor]
    simp [hv]
  · intro hv
    simp [ShowSystemCursor, hv]

theorem hide_show_idempotent_witness :
    (HideSystemCursor sampleCursorOs sampleVisibleState).1 = true ∧
    sampleVisibleState.cursorHidden = false ∧
    HideSystemCursor sampleCursorOsNoPlaceholder
        (HideSystemCursor sampleCursorOs sampleVisibleState).2
      = (true, (HideSystemCursor sampleCursorOs sampleVisibleState).2) ∧
    ShowSystemCursor sampleCursorOs (ShowSystemCursor sampleCursorOs sampleVisibleState).2
      = (false, (ShowSystemCursor sampleCursorOs sampleVisibleState).2) ∧
    (sampleVisibleState.cursorHidden = false →
      ShowSystemCursor sampleCursorOs sampleVisibleState = (false, sampleVisibleState)) :=
  ⟨by decide, by decide,
   hide_show_idempotent sampleCursorOs sampleCursorOsNoPlaceholder sampleCursorOs
     sampleCursorOs sampleVisibleState (by decide)⟩

/-- C7 (counterexample): in the visible state, when `CreateCursor` fails, the first hide()
returns false and leaves the state visible; a second hide() for which `CreateCursor` fails
again does not return true, and a second hide() for which it succeeds ends hidden, which is
not the state of the first hide(). -/
theorem hide_twice_without_placeholder :
    (HideSystemCursor sampleCursorOsNoPlaceholder sampleVisibleState).1 = false ∧
    (HideSystemCursor sampleCursorOsNoPlaceholder
      (HideSystemCursor sampleCursorOsNoPlaceholder sampleVisibleState).2).1 ≠ true ∧
    (HideSystemCursor sampleCursorOsNoPlaceholder sampleVisibleState).2.cursorHidden = false ∧
    (HideSystemCursor sampleCursorOs
      (HideSystemCursor sampleCursorOsNoPlaceholder sampleVisibleState).2).2.cursorHidden
      = true := by
  decide

/-- C11: for every identifier string the if-chain of `GetDeviceName` returns one of the seven
labels, and it returns `"Generic Mouse"` exactly when the string contains none of `"HID"`,
`"PS2"`, `"Synaptics"`, `"TouchPad"`. -/
theorem classifyCleanPath_total (cleanPath : List Char) :
    classifyCleanPath cleanPath ∈ classifierLabels ∧
    (classifyCleanPath cleanPath = "Generic Mouse" ↔
      (¬ "HID".toList <:+: cleanPath ∧ ¬ "PS2".toList <:+: cleanPath ∧
       ¬ "Synaptics".toList <:+: cleanPath ∧ ¬ "TouchPad".toList <:+: cleanPath)) := by
  simp only [← foundIn_iff, classifierLabels, classifyCleanPath]
  cases foundIn cleanPath "HID" <;> cases foundIn cleanPath "PS2" <;>
    cases foundIn cleanPath "Synaptics" <;> cases foundIn cleanPath "TouchPad" <;>
    cases foundIn cleanPath "VID_046D" <;> cases foundIn cleanPath "VID_1532" <;>
    cases foundIn cleanPath "VID_045E" <;> cases foundIn cleanPath "trackpad" <;>
    decide

/-! ## Further lemmas on the registry -/

theorem mapFind_mapErase_self (devices : DeviceMap) (h : HANDLE) :
    mapFind (mapErase devices h) h = none := by
  induction devices with
  | nil => rfl
  | cons p rest ih =>
    obtain ⟨k, v⟩ := p
    simp only [mapErase, mapFind] at ih ⊢
    by_cases hk : k = h
    · rw [List.filter_cons_of_neg (by simp [hk])]
      exact ih
    · have hk' : (h == k) = false := by
        simp only [beq_eq_false_iff_ne, ne_eq]
        exact fun e => hk e.symm
      rw [List.filter_cons_of_pos (by simp [hk]), List.lookup_cons, hk']
      exact ih

theorem mapFind_mapErase_other (devices : DeviceMap) (h k : HANDLE) (hne : k ≠ h) :
    mapFind (mapErase devices h) k = mapFind devices k := by
  induction devices with
  | nil => rfl
  | cons p rest ih =>
    obtain ⟨k', v⟩ := p
    simp only [mapErase, mapFind] at ih ⊢
    by_cases hk : k' = h
    · have hk' : (k == k') = false := by
        simp only [beq_eq_false_iff_ne, ne_eq]
        exact fun e => hne (e.trans hk)
      rw [List.filter_cons_of_neg (by simp [hk]), List.lookup_cons, hk']
      exact ih
    · rw [List.filter_cons_of_pos (by simp [hk]), List.lookup_cons, List.lookup_cons]
      cases (k == k') with
      | true => rfl
      | false => exact ih

/-! ## Further claims on the capture adapter -/

/-- C12: a disconnect notification for a handle always enqueues exactly one removed event
of that handle.  If the handle is registered, the event carries the registered name, the
handle is no longer in the registry afterwards and the entry of every other handle is as
before.  If it is not registered, the event carries the name `"Unknown"` and the registry
is as before. -/
theorem removal_enqueues_one_removed (os : OsReplies) (h : HANDLE) (s : InputState) :
    (∀ d, mapFind s.devices h = some d →
      (RawInputWndProc os (Message.WM_INPUT_DEVICE_CHANGE GIDC_REMOVAL h) s).eventQueue
        = s.eventQueue ++ [{ hDevice := h, deviceName := d.name, x := 0, y := 0, deltaX := 0,
                             deltaY := 0, flags := 0, type := "device",
                             action := "removed" }] ∧
      mapFind (RawInputWndProc os (Message.WM_INPUT_DEVICE_CHANGE GIDC_REMOVAL h) s).devices h
        = none ∧
      ∀ k, k ≠ h →
        mapFind (RawInputWndProc os (Message.WM_INPUT_DEVICE_CHANGE GIDC_REMOVAL h) s).devices k
          = mapFind s.devices k) ∧
    (mapFind s.devices h = none →
      (RawInputWndProc os (Message.WM_INPUT_DEVICE_CHANGE GIDC_REMOVAL h) s).eventQueue
        = s.eventQueue ++ [{ hDevice := h, deviceName := "Unknown", x := 0, y := 0,
                             deltaX := 0, deltaY := 0, flags := 0, type := "device",
                             action := "removed" }] ∧
      (RawInputWndProc os (Message.WM_INPUT_DEVICE_CHANGE GIDC_REMOVAL h) s).devices
        = s.devices) := by
  constructor
  · intro d hd
    simp only [RawInputWndProc, beq_self_eq_true, if_true, removeDevice, hd, queuePush,
      removedEvent, true_and]
    exact ⟨mapFind_mapErase_self _ _, fun k hk => mapFind_mapErase_other _ _ _ hk⟩
  · intro hd
    simp [RawInputWndProc, removeDevice, hd, queuePush, removedEvent]

theorem removal_enqueues_one_removed_witness :
    ((RawInputWndProc sampleOsNoCursor (Message.WM_INPUT_DEVICE_CHANGE GIDC_REMOVAL 7)
          sampleKnownState).eventQueue
        = sampleKnownState.eventQueue ++
            [{ hDevice := 7, deviceName := "USB Mouse", x := 0, y := 0, deltaX := 0,
               deltaY := 0, flags := 0, type := "device", action := "removed" }] ∧
      mapFind (RawInputWndProc sampleOsNoCursor (Message.WM_INPUT_DEVICE_CHANGE GIDC_REMOVAL 7)
          sampleKnownState).devices 7 = none ∧
      ∀ k, k ≠ 7 →
        mapFind (RawInputWndProc sampleOsNoCursor
            (Message.WM_INPUT_DEVICE_CHANGE GIDC_REMOVAL 7) sampleKnownState).devices k
          = mapFind sampleKnownState.devices k) ∧
    ((RawInputWndProc sampleOsNoCursor (Message.WM_INPUT_DEVICE_CHANGE GIDC_REMOVAL 8)
          sampleKnownState).eventQueue
        = sampleKnownState.eventQueue ++
            [{ hDevice := 8, deviceName := "Unknown", x := 0, y := 0, deltaX := 0,
               deltaY := 0, flags := 0, type := "device", action := "removed" }] ∧
      (RawInputWndProc sampleOsNoCursor (Message.WM_INPUT_DEVICE_CHANGE GIDC_REMOVAL 8)
          sampleKnownState).devices = sampleKnownState.devices) :=
  ⟨(removal_enqueues_one_removed sampleOsNoCursor 7 sampleKnownState).1
     { hDevice := 7, name := "USB Mouse", x := 100, y := 200 } (by decide),
   (removal_enqueues_one_removed sampleOsNoCursor 8 sampleKnownState).2 (by decide)⟩

theorem wrapInt32_of_fits (v : Int) (hv : fitsInt32 v) : wrapInt32 v = v := by
  unfold fitsInt32 at hv
  unfold wrapInt32 Int.bmod
  have h2 : ((2 ^ 32 : Nat) : Int) = 4294967296 := by norm_num
  rw [h2]
  dsimp only
  split <;> omega

/-- C13: a motion notification with (dx, dy) != (0, 0) for a registered device with last
position (x0, y0), where x0 + dx and y0 + dy are representable as `int`: the new position
is the point reported by `GetCursorPos` when it succeeds, and otherwise
(clamp(x0 + dx, 0, width - 1), clamp(y0 + dy, 0, height - 1)); the registry holds the
device at that position, and the one event enqueued is the move event carrying that
position, dx, dy and the flag bits unmodified. -/
theorem motion_updates_position (os : OsReplies) (raw : RAWINPUT) (s : InputState)
    (d : MouseDevice)
    (hmouse : raw.dwType = RIM_TYPEMOUSE)
    (hdelta : raw.lLastX ≠ 0 ∨ raw.lLastY ≠ 0)
    (hdev : mapFind s.devices raw.hDevice = some d)
    (hx : fitsInt32 (d.x + raw.lLastX)) (hy : fitsInt32 (d.y + raw.lLastY)) :
    mapFind (RawInputWndProc os (Message.WM_INPUT (some raw)) s).devices raw.hDevice
      = some { hDevice := d.hDevice, name := d.name,
               x := (match os.GetCursorPos with
                     | some cursorPos => cursorPos.1
                     | none => clamp (d.x + raw.lLastX) 0 (os.SM_CXSCREEN - 1)),
               y := (match os.GetCursorPos with
                     | some cursorPos => cursorPos.2
                     | none => clamp (d.y + raw.lLastY) 0 (os.SM_CYSCREEN - 1)) } ∧
    (RawInputWndProc os (Message.WM_INPUT (some raw)) s).eventQueue
      = s.eventQueue ++
        [{ hDevice := raw.hDevice, deviceName := d.name,
           x := (match os.GetCursorPos with
                 | some cursorPos => cursorPos.1
                 | none => clamp (d.x + raw.lLastX) 0 (os.SM_CXSCREEN - 1)),
           y := (match os.GetCursorPos with
                 | some cursorPos => cursorPos.2
                 | none => clamp (d.y + raw.lLastY) 0 (os.SM_CYSCREEN - 1)),
           deltaX := raw.lLastX, deltaY := raw.lLastY, flags := (raw.usFlags : Int),
           type := "move", action := "" }] := by
  have hcond : (raw.lLastX != 0 || raw.lLastY != 0) = true := by
    rcases hdelta with h | h <;> simp [h]
  simp only [RawInputWndProc, hmouse, beq_self_eq_true, if_true, registerIfNew, hdev,
    Option.isNone_some, Bool.false_eq_true, if_false, moveIfDelta, hcond, mapIndex,
    mapFind_mapAssign_self, queuePush, moveEvent, updatePosition, clamp]
  cases os.GetCursorPos with
  | some p => simp
  | none => simp [wrapInt32_of_fits _ hx, wrapInt32_of_fits _ hy]

theorem motion_updates_position_witness :
    mapFind (RawInputWndProc sampleOsNoCursor (Message.WM_INPUT (some sampleBigMotion))
        sampleKnownState).devices 7
      = some { hDevice := 7, name := "USB Mouse", x := 1919, y := 0 } ∧
    (RawInputWndProc sampleOsNoCursor (Message.WM_INPUT (some sampleBigMotion))
        sampleKnownState).eventQueue
      = sampleKnownState.eventQueue ++
        [{ hDevice := 7, deviceName := "USB Mouse", x := 1919, y := 0,
           deltaX := 3000, deltaY := -300, flags := 5, type := "move", action := "" }] :=
  motion_updates_position sampleOsNoCursor sampleBigMotion sampleKnownState
    { hDevice := 7, name := "USB Mouse", x := 100, y := 200 }
    (by decide) (by decide) (by decide) (by decide) (by decide)

/-! ## Claims on the dispatch loop -/

/-- The message loop dispatches the first `k` pending messages when it starts `k` short of
its cap of ten. -/
theorem pumpMessages_eq (pending : List (OsReplies × Message)) (k : Nat) (count : Int)
    (s : InputState) (hk : count + (k : Int) = 10) :
    pumpMessages pending count s
      = (count + ((min pending.length k : Nat) : Int), runWndProc (pending.take k) s) := by
  induction pending generalizing k count s with
  | nil => simp [pumpMessages, runWndProc]
  | cons m rest ih =>
    simp only [pumpMessages]
    cases k with
    | zero =>
      have hc : ¬ count < 10 := by omega
      simp [hc, runWndProc]
    | succ k =>
      have hc : count < 10 := by omega
      simp only [hc, if_true]
      rw [ih k (count + 1) _ (by omega)]
      simp only [List.length_cons, List.take_succ_cons, runWndProc, List.foldl_cons,
        Prod.mk.injEq, and_true]
      have : min (rest.length + 1) (k + 1) = min rest.length k + 1 := by omega
      rw [this]
      push_cast
      omega

theorem dispatchEvents_count (moveCallbackSet deviceCallbackSet : Bool)
    (batch : List MouseEvent) (count : Int) :
    (dispatchEvents moveCallbackSet deviceCallbackSet batch count).2
      = count + (batch.length : Int) := by
  induction batch generalizing count with
  | nil => simp [dispatchEvents]
  | cons e rest ih =>
    simp only [dispatchEvents]
    split
    · rw [ih]; push_cast [List.length_cons]; omega
    · split
      · rw [ih]; push_cast [List.length_cons]; omega
      · rw [ih]; push_cast [List.length_cons]; omega

theorem dispatchEvents_calls (moveCallbackSet deviceCallbackSet : Bool)
    (batch : List MouseEvent) (count : Int) :
    (dispatchEvents moveCallbackSet deviceCallbackSet batch count).1
      = expectedCalls moveCallbackSet deviceCallbackSet batch := by
  induction batch generalizing count with
  | nil => simp [dispatchEvents, expectedCalls]
  | cons e rest ih =>
    simp only [dispatchEvents, expectedCalls] at ih ⊢
    by_cases hm : e.type = "move"
    · have hd : ¬ e.type = "device" := by rw [hm]; decide
      cases moveCallbackSet <;>
        simp [hm, hd, callbackIsSet, callbackCallFor, List.filter_cons, ih]
    · by_cases hd : e.type = "device"
      · cases deviceCallbackSet <;>
          simp [hm, hd, callbackIsSet, callbackCallFor, List.filter_cons, ih]
      · simp [hm, hd, callbackIsSet, List.filter_cons, ih]

/-- C14: `ProcessMessages` returns m + n, where m = min(number of pending messages, 10) is
the number of messages it dispatched (never more than 10) and n is the length of the whole
batch it drained from the queue, whatever callbacks are set; afterwards the queue is
empty. -/
theorem ProcessMessages_count (pending : List (OsReplies × Message))
    (moveCallbackSet deviceCallbackSet : Bool) (s : InputState) :
    (ProcessMessages pending moveCallbackSet deviceCallbackSet s).1
      = ((min pending.length 10 : Nat) : Int)
        + (((runWndProc (pending.take (min pending.length 10)) s).eventQueue.length : Nat)
            : Int) ∧
    min pending.length 10 ≤ 10 ∧
    (ProcessMessages pending moveCallbackSet deviceCallbackSet s).2.2
      = { runWndProc (pending.take (min pending.length 10)) s with eventQueue := [] } := by
  have htake : pending.take (min pending.length 10) = pending.take 10 := by
    rw [List.take_eq_take]
    omega
  simp only [ProcessMessages, pumpMessages_eq pending 10 0 s (by norm_num),
    dispatchEvents_count, drainStep, queueSwap, htake]
  refine ⟨by omega, by omega, trivial⟩

/-- C15: the callback calls made by `ProcessMessages` are the drained batch in its order,
restricted to the events whose callback is set, move events going to the move callback and
device events to the device callback; so every event of the batch whose callback is set is
delivered, whatever was dropped before it. -/
theorem ProcessMessages_calls (pending : List (OsReplies × Message))
    (moveCallbackSet deviceCallbackSet : Bool) (s : InputState) :
    (ProcessMessages pending moveCallbackSet deviceCallbackSet s).2.1
      = expectedCalls moveCallbackSet deviceCallbackSet
          (runWndProc (pending.take 10) s).eventQueue ∧
    (∀ e ∈ (runWndProc (pending.take 10) s).eventQueue,
      callbackIsSet moveCallbackSet deviceCallbackSet e = true →
      callbackCallFor e ∈ (ProcessMessages pending moveCallbackSet deviceCallbackSet s).2.1) := by
  have h : (ProcessMessages pending moveCallbackSet deviceCallbackSet s).2.1
      = expectedCalls moveCallbackSet deviceCallbackSet
          (runWndProc (pending.take 10) s).eventQueue := by
    simp only [ProcessMessages, pumpMessages_eq pending 10 0 s (by norm_num),
      dispatchEvents_calls, drainStep, queueSwap]
  refine ⟨h, ?_⟩
  intro e he hset
  rw [h]
  simp only [expectedCalls, List.mem_map, List.mem_filter]
  exact ⟨e, ⟨he, hset⟩, rfl⟩

/-! ## Further claims on the cursor functions -/

theorem ConsoleCtrlHandler_slots (os : CursorOs) (ctrlType : Nat) (s : CursorState)
    (hctrl : ctrlType ∈ ctrlEvents) (hhidden : s.cursorHidden = true) :
    ∀ p ∈ slotNames, os.LoadCursor p.2 ≠ 0 →
      (ConsoleCtrlHandler os ctrlType s).2.systemCursors p.1 = os.LoadCursor p.2 := by
  intro p hp hd
  simp only [slotNames, List.mem_cons, List.mem_singleton, List.not_mem_nil, or_false] at hp
  simp only [ConsoleCtrlHandler, hctrl, hhidden, if_true]
  rcases hp with h | h | h | h | h | h | h | h | h | h <;> subst h <;>
    simp [setIfLoaded_other, setIfLoaded_same _ _ _ hd]

/-- C17 (amended): a hide() from a visible state with counter c >= 1, the placeholder cursor
existing or being created, succeeds; its decrement loop terminates (it stops as soon as
`ShowCursor` reports a negative counter) and the counter after hide() is -1. -/
theorem hide_counter_after (os : CursorOs) (s : CursorState)
    (hvisible : s.cursorHidden = false)
    (hplaceholder : s.transparentCursor ≠ 0 ∨ os.CreateCursor ≠ 0)
    (hc : s.displayCount ≥ 1) :
    (HideSystemCursor os s).1 = true ∧ (HideSystemCursor os s).2.displayCount = -1 := by
  obtain ⟨hok, _, hcount⟩ := HideSystemCursor_success os s hvisible hplaceholder
  refine ⟨hok, ?_⟩
  rw [hcount, hide_counter, if_pos hc]

theorem hide_counter_after_witness :
    (HideSystemCursor sampleCursorOs sampleNestedVisibleState).1 = true ∧
    (HideSystemCursor sampleCursorOs sampleNestedVisibleState).2.displayCount = -1 :=
  hide_counter_after sampleCursorOs sampleNestedVisibleState (by decide)
    (Or.inr (by decide)) (by decide)

/-- C17 (counterexample): from the visible state with counter 3, hide() succeeds and leaves
the counter at -1, not at 0. -/
theorem hide_counter_not_zero :
    sampleNestedVisibleState.cursorHidden = false ∧
    sampleNestedVisibleState.displayCount = 3 ∧
    (HideSystemCursor sampleCursorOs sampleNestedVisibleState).1 = true ∧
    (HideSystemCursor sampleCursorOs sampleNestedVisibleState).2.displayCount ≠ 0 := by
  have h := HideSystemCursor_success sampleCursorOs sampleNestedVisibleState (by decide)
    (Or.inr (by decide))
  refine ⟨by decide, by decide, h.1, ?_⟩
  rw [h.2.2, hide_counter]
  decide

theorem find_map_getD_cons {α β : Type} (p : α → Bool) (f : α → β) (a : α) (l : List α)
    (d : β) :
    (((a :: l).find? p).map f).getD d = if p a then f a else ((l.find? p).map f).getD d := by
  rw [List.find?_cons]
  cases p a <;> rfl

/-- C18: `GetCursorState` writes nothing; when `GetCursorInfo` succeeds it reports as type the
name of the first of the ten standard cursors equal to the current cursor, else `"system"`
when `cursorHidden` is false and `"hidden"` when it is true, and reports
`visible = !cursorHidden` with the screen position; when `GetCursorInfo` fails it reports
nothing. -/
theorem GetCursorState_reports (os : CursorOs) (s : CursorState) :
    (GetCursorState os s).2 = s ∧
    (GetCursorState os s).1
      = os.GetCursorInfo.map (fun cursorInfo =>
          { type := expectedCursorType os s.cursorHidden cursorInfo.1,
            visible := !s.cursorHidden, x := cursorInfo.2.1, y := cursorInfo.2.2 }) := by
  unfold GetCursorState
  cases os.GetCursorInfo with
  | none => exact ⟨rfl, rfl⟩
  | some cursorInfo =>
    refine ⟨rfl, ?_⟩
    simp only [Option.map_some', Option.some.injEq, CursorStateInfo.mk.injEq, and_self,
      and_true, expectedCursorType, glyphNames, find_map_getD_cons, List.find?_nil,
      Option.map_none', Option.getD_none]
    cases s.cursorHidden <;> rfl

theorem setIfLoaded_skip (d : HCURSOR) (id id' : Nat) (t : Nat → HCURSOR)
    (h : id' = id → d = 0) : setIfLoaded d id t id' = t id' := by
  by_cases hid : id' = id
  · simp [setIfLoaded, h hid]
  · exact setIfLoaded_other d id id' t hid

/-- A slot for which no restoring statement has a non-null default keeps its glyph. -/
theorem EmergencyRestoreCursors_untouched (os : CursorOs) (s : CursorState) (id : Nat)
    (h : ∀ p ∈ slotNames, id = p.1 → os.LoadCursor p.2 = 0) :
    (EmergencyRestoreCursors os s).2.systemCursors id = s.systemCursors id := by
  simp only [slotNames, List.mem_cons, List.mem_singleton, List.not_mem_nil, or_false,
    forall_eq_or_imp, forall_eq] at h
  obtain ⟨h1, h2, h3, h4, h5, h6, h7, h8, h9, h10⟩ := h
  simp only [EmergencyRestoreCursors]
  rw [setIfLoaded_skip _ _ _ _ h10, setIfLoaded_skip _ _ _ _ h9, setIfLoaded_skip _ _ _ _ h8,
    setIfLoaded_skip _ _ _ _ h7, setIfLoaded_skip _ _ _ _ h6, setIfLoaded_skip _ _ _ _ h5,
    setIfLoaded_skip _ _ _ _ h4, setIfLoaded_skip _ _ _ _ h3, setIfLoaded_skip _ _ _ _ h2,
    setIfLoaded_skip _ _ _ _ h1]

theorem EmergencyRestoreCursors_counter (os : CursorOs) (s : CursorState) :
    (EmergencyRestoreCursors os s).2.displayCount
      = if s.displayCount < -1 then 0 else s.displayCount + 1 := by
  simp only [EmergencyRestoreCursors, show_counter]

/-- C19 (amended): calling emergency_restore() twice, `LoadCursor` answering the same both
times, leaves the same hidden flag (false) and the same system cursor table, hence the
same ten glyph slots, as calling it once; the display counter is not the same: the second
call raises it by one more. -/
theorem EmergencyRestoreCursors_twice (os : CursorOs) (s : CursorState) :
    (EmergencyRestoreCursors os (EmergencyRestoreCursors os s).2).2.cursorHidden
      = (EmergencyRestoreCursors os s).2.cursorHidden ∧
    (EmergencyRestoreCursors os (EmergencyRestoreCursors os s).2).2.systemCursors
      = (EmergencyRestoreCursors os s).2.systemCursors ∧
    (EmergencyRestoreCursors os (EmergencyRestoreCursors os s).2).2.displayCount
      = (EmergencyRestoreCursors os s).2.displayCount + 1 := by
  refine ⟨rfl, ?_, ?_⟩
  · funext id
    by_cases h : ∃ p ∈ slotNames, id = p.1 ∧ os.LoadCursor p.2 ≠ 0
    · obtain ⟨p, hp, hid, hd⟩ := h
      rw [hid, EmergencyRestoreCursors_slots os _ p hp hd,
        EmergencyRestoreCursors_slots os s p hp hd]
    · apply EmergencyRestoreCursors_untouched
      intro p hp hid
      by_contra hd
      exact h ⟨p, hp, hid, hd⟩
  · rw [EmergencyRestoreCursors_counter os (EmergencyRestoreCursors os s).2,
      EmergencyRestoreCursors_counter os s]
    split <;> split <;> omega

/-- C19 (counterexample): from the visible state with counter 1, one emergency_restore()
leaves the counter at 2 and a second one leaves it at 3. -/
theorem EmergencyRestoreCursors_twice_counter_differs :
    (EmergencyRestoreCursors sampleCursorOs sampleVisibleState).2.displayCount = 2 ∧
    (EmergencyRestoreCursors sampleCursorOs
      (EmergencyRestoreCursors sampleCursorOs sampleVisibleState).2).2.displayCount = 3 ∧
    (EmergencyRestoreCursors sampleCursorOs
      (EmergencyRestoreCursors sampleCursorOs sampleVisibleState).2).2.displayCount
      ≠ (EmergencyRestoreCursors sampleCursorOs sampleVisibleState).2.displayCount := by
  have h1 : (EmergencyRestoreCursors sampleCursorOs sampleVisibleState).2.displayCount = 2 := by
    rw [EmergencyRestoreCursors_counter]; decide
  have h2 : (EmergencyRestoreCursors sampleCursorOs
      (EmergencyRestoreCursors sampleCursorOs sampleVisibleState).2).2.displayCount = 3 := by
    rw [EmergencyRestoreCursors_counter, h1]; decide
  refine ⟨h1, h2, ?_⟩
  rw [h1, h2]; decide

/-! ## Classification without `"HID"` -/

/-- C23: for every identifier that does not contain `"HID"`, the if-chain of `GetDeviceName`
returns `"PS/2 Mouse"` when `"PS2"` occurs, else `"Trackpad"` when `"Synaptics"` or
`"TouchPad"` occurs, else `"Generic Mouse"`; so it returns none of `"Logitech Mouse"`,
`"Razer Mouse"`, `"Microsoft Mouse"`, `"USB Mouse"`, whatever vendor IDs occur. -/
theorem classifyCleanPath_without_hid (cleanPath : List Char)
    (hHID : ¬ "HID".toList <:+: cleanPath) :
    ("PS2".toList <:+: cleanPath → classifyCleanPath cleanPath = "PS/2 Mouse") ∧
    (¬ "PS2".toList <:+: cleanPath →
      ("Synaptics".toList <:+: cleanPath ∨ "TouchPad".toList <:+: cleanPath) →
      classifyCleanPath cleanPath = "Trackpad") ∧
    (¬ "PS2".toList <:+: cleanPath → ¬ "Synaptics".toList <:+: cleanPath →
      ¬ "TouchPad".toList <:+: cleanPath → classifyCleanPath cleanPath = "Generic Mouse") ∧
    classifyCleanPath cleanPath ∉
      ["Logitech Mouse", "Razer Mouse", "Microsoft Mouse", "USB Mouse"] := by
  have h := (foundIn_eq_false_iff cleanPath "HID").2 hHID
  simp only [← foundIn_iff, classifyCleanPath, h, Bool.false_eq_true, if_false]
  cases foundIn cleanPath "PS2" <;> cases foundIn cleanPath "Synaptics" <;>
    cases foundIn cleanPath "TouchPad" <;> decide

theorem classifyCleanPath_without_hid_witness :
    ¬ "HID".toList <:+: sampleNonHidPath ∧ "VID_046D".toList <:+: sampleNonHidPath ∧
    classifyCleanPath sampleNonHidPath = "PS/2 Mouse" ∧
    classifyCleanPath sampleNonHidPath ∉
      ["Logitech Mouse", "Razer Mouse", "Microsoft Mouse", "USB Mouse"] :=
  ⟨by decide, by decide,
   (classifyCleanPath_without_hid sampleNonHidPath (by decide)).1 (by decide),
   (classifyCleanPath_without_hid sampleNonHidPath (by decide)).2.2.2⟩

/-! ## Hide without a placeholder -/

/-- C24: when the placeholder cursor does not exist and `CreateCursor` fails, hide() in a
visible state returns false; `cursorHidden` stays false, and `cursorsSaved`, the saved
snapshot `originalCursors`, the system cursor table and the display counter are as
before (the only global written is `originalCursor`). -/
theorem hide_fails_without_placeholder (os : CursorOs) (s : CursorState)
    (hvisible : s.cursorHidden = false) (hnull : s.transparentCursor = 0)
    (hcreate : os.CreateCursor = 0) :
    (HideSystemCursor os s).1 = false ∧
    (HideSystemCursor os s).2.cursorHidden = false ∧
    (HideSystemCursor os s).2.transparentCursor = 0 ∧
    (HideSystemCursor os s).2.cursorsSaved = s.cursorsSaved ∧
    (HideSystemCursor os s).2.originalCursors = s.originalCursors ∧
    (HideSystemCursor os s).2.systemCursors = s.systemCursors ∧
    (HideSystemCursor os s).2.displayCount = s.displayCount := by
  simp [HideSystemCursor, hvisible, hnull, hcreate, CreateTransparentCursor]

theorem hide_fails_without_placeholder_witness :
    sampleVisibleState.cursorHidden = false ∧ sampleVisibleState.transparentCursor = 0 ∧
    sampleCursorOsNoPlaceholder.CreateCursor = 0 ∧
    (HideSystemCursor sampleCursorOsNoPlaceholder sampleVisibleState).1 = false ∧
    (HideSystemCursor sampleCursorOsNoPlaceholder sampleVisibleState).2.cursorHidden = false ∧
    (HideSystemCursor sampleCursorOsNoPlaceholder sampleVisibleState).2.transparentCursor = 0 ∧
    (HideSystemCursor sampleCursorOsNoPlaceholder sampleVisibleState).2.cursorsSaved
      = sampleVisibleState.cursorsSaved ∧
    (HideSystemCursor sampleCursorOsNoPlaceholder sampleVisibleState).2.originalCursors
      = sampleVisibleState.originalCursors ∧
    (HideSystemCursor sampleCursorOsNoPlaceholder sampleVisibleState).2.systemCursors
      = sampleVisibleState.systemCursors ∧
    (HideSystemCursor sampleCursorOsNoPlaceholder sampleVisibleState).2.displayCount
      = sampleVisibleState.displayCount :=
  ⟨by decide, by decide, by decide,
   hide_fails_without_placeholder sampleCursorOsNoPlaceholder sampleVisibleState
     (by decide) (by decide) (by decide)⟩

/-! ## The invariant of the hidden state -/

/-- Every call keeps the invariant: a hidden state has the placeholder installed. -/
theorem applyCall_invariant (os : CursorOs) (call : CursorCall) (s : CursorState)
    (hinv : s.cursorHidden = true → placeholderInstalled s) :
    (applyCall os call s).cursorHidden = true → placeholderInstalled (applyCall os call s) := by
  cases call with
  | hideSystemCursor =>
    simp only [applyCall]
    cases hh : s.cursorHidden with
    | true =>
      have : HideSystemCursor os s = (true, s) := by simp [HideSystemCursor, hh]
      rw [this]
      exact hinv
    | false => exact HideSystemCursor_installs os s hh
  | showSystemCursor =>
    simp only [applyCall]
    intro h
    cases hh : s.cursorHidden <;> simp [ShowSystemCursor, hh] at h
  | emergencyRestoreCursors =>
    simp only [applyCall]
    intro h
    simp [EmergencyRestoreCursors] at h
  | getCursorState =>
    have : (GetCursorState os s).2 = s := by
      unfold GetCursorState
      cases os.GetCursorInfo <;> rfl
    simp only [applyCall, this]
    exact hinv
  | consoleCtrlHandler ctrlType =>
    simp only [applyCall]
    by_cases hc : ctrlType ∈ ctrlEvents
    · cases hh : s.cursorHidden with
      | true =>
        intro h
        simp [ConsoleCtrlHandler, hc, hh] at h
      | false =>
        have : ConsoleCtrlHandler os ctrlType s = (false, s) := by
          simp [ConsoleCtrlHandler, hh]
        rw [this]
        exact hinv
    · have : ConsoleCtrlHandler os ctrlType s = (false, s) := by
        simp [ConsoleCtrlHandler, hc]
      rw [this]
      exact hinv

/-- C21: in every state reached from a state with `cursorHidden = false` (such as the state
at program start) by any sequence of hide, show, emergency_restore, query_state and
termination-handler calls, `cursorHidden = true` implies that `cursorsSaved` is true, that
the placeholder cursor is not null and that each of the ten slots holds the placeholder. -/
theorem hidden_implies_placeholderInstalled (calls : List (CursorOs × CursorCall))
    (s : CursorState) (hstart : s.cursorHidden = false)
    (hhidden : (runCalls calls s).cursorHidden = true) :
    (runCalls calls s).cursorsSaved = true ∧
    (runCalls calls s).transparentCursor ≠ 0 ∧
    ∀ p ∈ slotNames, (runCalls calls s).systemCursors p.1
      = (runCalls calls s).transparentCursor := by
  have key : ∀ (calls : List (CursorOs × CursorCall)) (s : CursorState),
      (s.cursorHidden = true → placeholderInstalled s) →
      ((runCalls calls s).cursorHidden = true → placeholderInstalled (runCalls calls s)) := by
    intro calls
    induction calls with
    | nil => intro s h; simpa [runCalls] using h
    | cons c rest ih =>
      intro s h
      simp only [runCalls, List.foldl_cons]
      exact ih _ (applyCall_invariant c.1 c.2 s h)
  exact key calls s (fun h => by rw [hstart] at h; exact absurd h (by decide)) hhidden

theorem hidden_implies_placeholderInstalled_witness :
    (runCalls sampleCalls (CursorState.initial (fun _ => 1) 0)).cursorHidden = true ∧
    (runCalls sampleCalls (CursorState.initial (fun _ => 1) 0)).cursorsSaved = true ∧
    (runCalls sampleCalls (CursorState.initial (fun _ => 1) 0)).transparentCursor ≠ 0 ∧
    ∀ p ∈ slotNames, (runCalls sampleCalls (CursorState.initial (fun _ => 1) 0)).systemCursors p.1
      = (runCalls sampleCalls (CursorState.initial (fun _ => 1) 0)).transparentCursor :=
  ⟨by decide,
   hidden_implies_placeholderInstalled sampleCalls (CursorState.initial (fun _ => 1) 0)
     (by decide) (by decide)⟩

/-! ## The fixed set of slots -/

theorem mem_standardSlots_iff (id : Nat) :
    id ∈ standardSlots ↔ ∃ p ∈ slotNames, p.1 = id := by
  simp only [standardSlots, Set.mem_insert_iff, Set.mem_singleton_iff, slotNames,
    List.mem_cons, List.mem_singleton, List.not_mem_nil, or_false, exists_eq_or_imp,
    exists_eq_left]
  constructor <;> intro h <;> omega

theorem not_mem_standardSlots (id : Nat) (h : id ∉ standardSlots) :
    id ≠ 32512 ∧ id ≠ 32513 ∧ id ≠ 32649 ∧ id ≠ 32514 ∧ id ≠ 32515 ∧ id ≠ 32644 ∧
    id ≠ 32645 ∧ id ≠ 32642 ∧ id ≠ 32643 ∧ id ≠ 32648 := by
  simp only [standardSlots, Set.mem_insert_iff, Set.mem_singleton_iff] at h
  omega

theorem restoreChain_outside (os : CursorOs) (t : Nat → HCURSOR) (id : Nat)
    (h : id ∉ standardSlots) :
    setIfLoaded (os.LoadCursor Idc.IDC_NO) 32648
      (setIfLoaded (os.LoadCursor Idc.IDC_SIZENWSE) 32643
        (setIfLoaded (os.LoadCursor Idc.IDC_SIZENESW) 32642
          (setIfLoaded (os.LoadCursor Idc.IDC_SIZENS) 32645
            (setIfLoaded (os.LoadCursor Idc.IDC_SIZEWE) 32644
              (setIfLoaded (os.LoadCursor Idc.IDC_CROSS) 32515
                (setIfLoaded (os.LoadCursor Idc.IDC_WAIT) 32514
                  (setIfLoaded (os.LoadCursor Idc.IDC_HAND) 32649
                    (setIfLoaded (os.LoadCursor Idc.IDC_IBEAM) 32513
                      (setIfLoaded (os.LoadCursor Idc.IDC_ARROW) 32512 t))))))))) id
      = t id := by
  obtain ⟨h1, h2, h3, h4, h5, h6, h7, h8, h9, h10⟩ := not_mem_standardSlots id h
  rw [setIfLoaded_other _ _ _ _ h10, setIfLoaded_other _ _ _ _ h9,
    setIfLoaded_other _ _ _ _ h8, setIfLoaded_other _ _ _ _ h7, setIfLoaded_other _ _ _ _ h6,
    setIfLoaded_other _ _ _ _ h5, setIfLoaded_other _ _ _ _ h4, setIfLoaded_other _ _ _ _ h3,
    setIfLoaded_other _ _ _ _ h2, setIfLoaded_other _ _ _ _ h1]

theorem HideSystemCursor_outside (os : CursorOs) (s : CursorState) (id : Nat)
    (h : id ∉ standardSlots) :
    (HideSystemCursor os s).2.systemCursors id = s.systemCursors id := by
  obtain ⟨h1, h2, h3, h4, h5, h6, h7, h8, h9, h10⟩ := not_mem_standardSlots id h
  cases hh : s.cursorHidden with
  | true => simp [HideSystemCursor, hh]
  | false =>
    by_cases h0 : s.transparentCursor = 0
    · by_cases hc : os.CreateCursor = 0
      · simp [HideSystemCursor, hh, h0, hc, CreateTransparentCursor]
      · cases hsaved : s.cursorsSaved <;>
          simp [HideSystemCursor, hh, h0, hc, hsaved, CreateTransparentCursor,
            SetSystemCursor, Function.update, h1, h2, h3, h4, h5, h6, h7, h8, h9, h10]
    · cases hsaved : s.cursorsSaved <;>
        simp [HideSystemCursor, hh, h0, hsaved, SetSystemCursor, Function.update,
          h1, h2, h3, h4, h5, h6, h7, h8, h9, h10]

theorem ShowSystemCursor_outside (os : CursorOs) (s : CursorState) (id : Nat)
    (h : id ∉ standardSlots) :
    (ShowSystemCursor os s).2.systemCursors id = s.systemCursors id := by
  unfold ShowSystemCursor
  split
  · exact restoreChain_outside os s.systemCursors id h
  · rfl

theorem EmergencyRestoreCursors_outside (os : CursorOs) (s : CursorState) (id : Nat)
    (h : id ∉ standardSlots) :
    (EmergencyRestoreCursors os s).2.systemCursors id = s.systemCursors id :=
  restoreChain_outside os s.systemCursors id h

theorem ConsoleCtrlHandler_outside (os : CursorOs) (ctrlType : Nat) (s : CursorState)
    (id : Nat) (h : id ∉ standardSlots) :
    (ConsoleCtrlHandler os ctrlType s).2.systemCursors id = s.systemCursors id := by
  unfold ConsoleCtrlHandler
  split
  · split
    · exact restoreChain_outside os s.systemCursors id h
    · rfl
  · rfl

theorem sample_defaults_distinct :
    ∀ p ∈ slotNames, sampleCursorOs.LoadCursor p.2 ≠ 0 ∧ sampleCursorOs.LoadCursor p.2 ≠ 99 := by
  decide

theorem slotsWritten_HideSystemCursor : slotsWritten HideSystemCursor = standardSlots := by
  ext id
  constructor
  · rintro ⟨os, s, hne⟩
    by_contra hout
    exact hne (HideSystemCursor_outside os s id hout)
  · intro hin
    obtain ⟨p, hp, rfl⟩ := (mem_standardSlots_iff id).1 hin
    refine ⟨sampleCursorOs, sampleVisibleState, ?_⟩
    have h := (HideSystemCursor_installs sampleCursorOs sampleVisibleState (by decide)
      (by decide)).2.2 p hp
    have ht : (HideSystemCursor sampleCursorOs sampleVisibleState).2.transparentCursor = 99 := by
      decide
    rw [h, ht]
    show (99 : Nat) ≠ 1
    decide

theorem slotsWritten_ShowSystemCursor : slotsWritten ShowSystemCursor = standardSlots := by
  ext id
  constructor
  · rintro ⟨os, s, hne⟩
    by_contra hout
    exact hne (ShowSystemCursor_outside os s id hout)
  · intro hin
    obtain ⟨p, hp, rfl⟩ := (mem_standardSlots_iff id).1 hin
    refine ⟨sampleCursorOs, sampleHiddenState, ?_⟩
    rw [ShowSystemCursor_slots sampleCursorOs sampleHiddenState rfl p hp
      (sample_defaults_distinct p hp).1]
    exact (sample_defaults_distinct p hp).2

theorem slotsWritten_EmergencyRestoreCursors :
    slotsWritten EmergencyRestoreCursors = standardSlots := by
  ext id
  constructor
  · rintro ⟨os, s, hne⟩
    by_contra hout
    exact hne (EmergencyRestoreCursors_outside os s id hout)
  · intro hin
    obtain ⟨p, hp, rfl⟩ := (mem_standardSlots_iff id).1 hin
    refine ⟨sampleCursorOs, sampleHiddenState, ?_⟩
    rw [EmergencyRestoreCursors_slots sampleCursorOs sampleHiddenState p hp
      (sample_defaults_distinct p hp).1]
    exact (sample_defaults_distinct p hp).2

theorem slotsWritten_ConsoleCtrlHandler (ctrlType : Nat) (hctrl : ctrlType ∈ ctrlEvents) :
    slotsWritten (fun os s => ConsoleCtrlHandler os ctrlType s) = standardSlots := by
  ext id
  constructor
  · rintro ⟨os, s, hne⟩
    by_contra hout
    exact hne (ConsoleCtrlHandler_outside os ctrlType s id hout)
  · intro hin
    obtain ⟨p, hp, rfl⟩ := (mem_standardSlots_iff id).1 hin
    refine ⟨sampleCursorOs, sampleHiddenState, ?_⟩
    show (ConsoleCtrlHandler sampleCursorOs ctrlType sampleHiddenState).2.systemCursors p.1
      ≠ sampleHiddenState.systemCursors p.1
    rw [ConsoleCtrlHandler_slots sampleCursorOs ctrlType sampleHiddenState hctrl rfl p hp
      (sample_defaults_distinct p hp).1]
    exact (sample_defaults_distinct p hp).2

theorem HideSystemCursor_snapshot (os : CursorOs) (s : CursorState)
    (hvisible : s.cursorHidden = false) (hunsaved : s.cursorsSaved = false)
    (hok : (HideSystemCursor os s).1 = true) :
    (HideSystemCursor os s).2.originalCursors = slotNames.map (fun p => os.LoadCursor p.2) := by
  by_cases h0 : s.transparentCursor = 0
  · by_cases hc : os.CreateCursor = 0
    · simp [HideSystemCursor, hvisible, h0, hc, CreateTransparentCursor] at hok
    · simp [HideSystemCursor, hvisible, h0, hc, hunsaved, CreateTransparentCursor, slotNames]
  · simp [HideSystemCursor, hvisible, h0, hunsaved, slotNames]

theorem runQueueSteps_append (first second : List QueueStep) (s : InputState) :
    runQueueSteps (first ++ second) s
      = ((runQueueSteps first s).1 ++ (runQueueSteps second (runQueueSteps first s).2).1,
         (runQueueSteps second (runQueueSteps first s).2).2) := by
  induction first generalizing s with
  | nil => simp [runQueueSteps]
  | cons step rest ih =>
    cases step with
    | push event =>
      rw [List.cons_append]
      simp only [runQueueSteps]
      rw [ih]
    | drain =>
      rw [List.cons_append]
      simp only [runQueueSteps]
      rw [ih]
      rfl

theorem runQueueSteps_pushes_then_drain (events : List MouseEvent) (s : InputState) :
    runQueueSteps (events.map QueueStep.push ++ [QueueStep.drain]) s
      = ([s.eventQueue ++ events], { s with eventQueue := [] }) := by
  induction events generalizing s with
  | nil => simp [runQueueSteps, drainStep, queueSwap]
  | cons e rest ih =>
    rw [List.map_cons, List.cons_append]
    simp only [runQueueSteps]
    rw [ih]
    simp [queuePush]

theorem runQueueSteps_drain_empties (before : List QueueStep) (s : InputState) :
    (runQueueSteps (before ++ [QueueStep.drain]) s).2.eventQueue = [] := by
  rw [runQueueSteps_append]
  simp [runQueueSteps, drainStep, queueSwap]

/-- C20: every access to `eventQueue` is a critical section under `eventMutex`, so an
interleaving of the producer with the consumer is a sequence of pushes and drains.  For
every such sequence no event is lost or duplicated: the batches returned by the drains,
one after the other, followed by what is still queued, are exactly the events queued at
the start followed by the pushed events in push order.  And the events pushed after one
drain and before the next are exactly the batch of that next drain, the batches of the
earlier drains staying as they were. -/
theorem interleaving_no_loss_no_duplication (steps : List QueueStep) (s : InputState) :
    ((runQueueSteps steps s).1.flatten ++ (runQueueSteps steps s).2.eventQueue
      = s.eventQueue ++ pushedEvents steps) ∧
    (∀ (before : List QueueStep) (events : List MouseEvent),
      (runQueueSteps
          (before ++ [QueueStep.drain] ++ (events.map QueueStep.push ++ [QueueStep.drain])) s).1
        = (runQueueSteps (before ++ [QueueStep.drain]) s).1 ++ [events]) := by
  constructor
  · induction steps generalizing s with
    | nil => simp [runQueueSteps, pushedEvents]
    | cons step rest ih =>
      cases step with
      | push event =>
        simp only [runQueueSteps, pushedEvents]
        rw [ih]
        simp [queuePush]
      | drain =>
        simp only [runQueueSteps, pushedEvents, List.flatten_cons, List.append_assoc]
        rw [ih]
        simp [drainStep, queueSwap]
  · intro before events
    rw [runQueueSteps_append, runQueueSteps_pushes_then_drain,
      runQueueSteps_drain_empties]
    simp

end MultiMouse
